import Mathlib

/-!
# Force-feedback rumble effects of `golang-evdev` (`ff.go`)

A shallow embedding of `ff.go`: the effect descriptor handed to the upload
ioctl and its memory image, the validation and encoding done by
`CreateFFRumbleEffect`, the `Play`/`Stop` event writes, the removal request of
`Delete` and the capability query `SupportsFFRumble`.

Conventions of the embedding.

* Go's `float32` is the IEEE-754 binary32 format, kept as its three bit
  fields; comparison, multiplication (round to nearest, ties to even) and the
  conversion to `uint16` are defined on the fields.
* `time.Duration` is a count of nanoseconds, an `Int`; `uint16(x)` of an
  integer keeps the low 16 bits (`x % 65536`).
* A Go result pair `(*FFEffect, error)` is a pair of `Option`s, so that
  "a handle and no error" is a property of the code and not of the type.
* The kernel is a collaborator: its answers are functions of the history of
  calls made so far, and every call is appended to that history.
-/

namespace Evdev

/-! ## IEEE-754 binary32 -/

/-- A Go `float32`: sign bit, 8-bit biased exponent, 23-bit fraction. -/
structure Float32 where
  sign : Bool
  expo : Fin 256
  frac : Fin 8388608
deriving DecidableEq, Repr

namespace Float32

/-- Not-a-number: exponent field all ones, fraction non-zero. -/
def isNaN (x : Float32) : Bool := x.expo.val == 255 && x.frac.val != 0

/-- Infinity: exponent field all ones, fraction zero. -/
def isInf (x : Float32) : Bool := x.expo.val == 255 && x.frac.val == 0

/-- Integer significand: the fraction with the hidden bit of a normal number. -/
def sig (x : Float32) : Nat :=
  if x.expo.val = 0 then x.frac.val else 8388608 + x.frac.val

/-- Effective biased exponent: the magnitude of a finite `x` is
`sig x * 2 ^ (bexp x - 150)`. -/
def bexp (x : Float32) : Nat := if x.expo.val = 0 then 1 else x.expo.val

/-- Magnitude in units of `2 ^ (-149)`; the formula puts infinity above every
finite number. -/
def mag (x : Float32) : Nat := x.sig * 2 ^ (x.bexp - 1)

/-- Signed magnitude in units of `2 ^ (-149)`; both zeros give `0`. -/
def key (x : Float32) : Int := if x.sign then - (x.mag : Int) else (x.mag : Int)

/-- The rational number a finite `x` denotes. -/
def toRat (x : Float32) : ℚ :=
  (if x.sign then -1 else 1) * (x.sig : ℚ) * (2 : ℚ) ^ ((x.bexp : Int) - 150)

/-- Go's `a < b` on `float32`: false when either operand is NaN. -/
def lt (a b : Float32) : Bool := !a.isNaN && !b.isNaN && decide (a.key < b.key)

/-- Go's `a > b` on `float32`. -/
def gt (a b : Float32) : Bool := lt b a

/-- Go's `a <= b` on `float32`: false when either operand is NaN. -/
def le (a b : Float32) : Bool := !a.isNaN && !b.isNaN && decide (a.key ≤ b.key)

/-- The constant `0.0`. -/
def zero : Float32 := ⟨false, 0, 0⟩

/-- The constant `1.0`. -/
def one : Float32 := ⟨false, 127, 0⟩

/-- The constant `0.5`. -/
def half : Float32 := ⟨false, 126, 0⟩

/-- The constant `0xffff` converted to `float32`: `65535 = 0xFFFF00 * 2 ^ (-8)`. -/
def c65535 : Float32 := ⟨false, 142, 8388352⟩

/-- The default quiet NaN. -/
def nan : Float32 := ⟨false, 255, 4194304⟩

/-- Infinity of the given sign. -/
def inf (s : Bool) : Float32 := ⟨s, 255, 0⟩

/-- Quotient of `n` by `2 ^ s`, rounded to nearest, ties to even. -/
def rne (n s : Nat) : Nat :=
  let q := n / 2 ^ s
  let r := n % 2 ^ s
  if 2 * r > 2 ^ s ∨ (2 * r = 2 ^ s ∧ q % 2 = 1) then q + 1 else q

/-- The float with sign `s`, significand `m ≤ 2 ^ 24` and quantum `2 ^ t`
(`t ≥ -149`), overflowing to infinity. -/
def pack (s : Bool) (m : Nat) (t : Int) : Float32 :=
  let m1 := if m = 16777216 then 8388608 else m
  let t1 := if m = 16777216 then t + 1 else t
  if m1 < 8388608 then ⟨s, 0, ⟨m1 % 8388608, Nat.mod_lt _ (by decide)⟩⟩
  else if t1 + 150 ≥ 255 then inf s
  else ⟨s, ⟨(t1 + 150).toNat % 256, Nat.mod_lt _ (by decide)⟩,
          ⟨m1 % 8388608, Nat.mod_lt _ (by decide)⟩⟩

/-- Binary logarithm by repeated halving; `fuel` bounds the number of steps. -/
def ilog2 : Nat → Nat → Nat
  | 0, _ => 0
  | fuel + 1, n => if n < 2 then 0 else ilog2 fuel (n / 2) + 1

/-- Position of the leading bit of `n`: `2 ^ log2 n ≤ n < 2 ^ (log2 n + 1)` for
`n ≠ 0`. -/
def log2 (n : Nat) : Nat := ilog2 n n

/-- The float nearest to `(-1)^s * n * 2 ^ e`, ties to even. -/
def round (s : Bool) (n : Nat) (e : Int) : Float32 :=
  if n = 0 then ⟨s, 0, 0⟩
  else
    let t : Int := max ((log2 n : Int) + e - 23) (-149)
    if t ≤ e then pack s (n * 2 ^ (e - t).toNat) t
    else pack s (rne n (t - e).toNat) t

/-- Go's `a * b` on `float32`: the exact product, rounded once. -/
def mul (a b : Float32) : Float32 :=
  if a.isNaN || b.isNaN then nan
  else if a.isInf || b.isInf then
    (if a.mag = 0 ∨ b.mag = 0 then nan else inf (xor a.sign b.sign))
  else round (xor a.sign b.sign) (a.sig * b.sig)
    ((a.bexp : Int) - 150 + ((b.bexp : Int) - 150))

/-- Integer part of the magnitude of a finite `x` (truncation toward zero). -/
def truncMag (x : Float32) : Nat :=
  if 150 ≤ x.bexp then x.sig * 2 ^ (x.bexp - 150) else x.sig / 2 ^ (150 - x.bexp)

/-- Go's `uint16(x)` for a `float32`: the fraction is discarded; when the
integer part is not a `uint16` value (or `x` is NaN or infinite) the result is
implementation-dependent, given here by `undef`. -/
def toUint16 (undef : Float32 → Nat) (x : Float32) : Nat :=
  if x.isNaN || x.isInf then undef x % 65536
  else if x.sign && x.truncMag != 0 then undef x % 65536
  else if x.truncMag ≤ 65535 then x.truncMag
  else undef x % 65536

end Float32

/-! ## Declarations used by `ff.go` -/

/-- Modelled from the spec: the kernel constants `EV_FF`, `FF_RUMBLE`,
`EVIOCSFF` and `EVIOCRMFF` are declared outside `ff.go`; their values are
parameters of the development. -/
structure Ecodes where
  EV_FF : Nat
  FF_RUMBLE : Nat
  EVIOCSFF : Nat
  EVIOCRMFF : Nat
deriving DecidableEq, Repr

/-- The values of the constants in the Linux input headers (64-bit). -/
def linuxEcodes : Ecodes :=
  { EV_FF := 0x15, FF_RUMBLE := 0x50, EVIOCSFF := 0x40304580, EVIOCRMFF := 0x40044581 }

/-- Modelled from the spec: the key type of the capability map, declared
outside `ff.go` (`Type int`, `Name string`). -/
structure CapabilityType where
  Typ : Int
  Name : String
deriving DecidableEq, Repr

/-- Modelled from the spec: an entry of a capability code list, declared
outside `ff.go` (`Code int`, `Name string`). -/
structure CapabilityCode where
  Code : Int
  Name : String
deriving DecidableEq, Repr

/-- Modelled from the spec: the open device, declared outside `ff.go`; only the
members `ff.go` reads are kept: the file (its descriptor) and the capability
map, an association list read with `List.lookup`. -/
structure InputDevice where
  File : Nat
  Capabilities : List (CapabilityType × List CapabilityCode)
deriving DecidableEq, Repr

/-- Modelled from the spec: the raw input-event record, declared outside
`ff.go`: a timestamp (seconds, microseconds), `Type uint16`, `Code uint16`,
`Value int32`. -/
structure InputEvent where
  TimeSec : Int
  TimeUsec : Int
  Typ : Nat
  Code : Nat
  Value : Int
deriving DecidableEq, Repr

/-! ## The data model of `ff.go` -/

/-- Go `type FFTriggerC struct`. -/
structure FFTriggerC where
  button : Nat
  interval : Nat
deriving DecidableEq, Repr

/-- Go `type FFReplayC struct`. -/
structure FFReplayC where
  length : Nat
  delay : Nat
deriving DecidableEq, Repr

/-- Go `type FFEffectC struct`; `EffectType` is a `uint16`, `EffectID` an `int16`. -/
structure FFEffectC where
  effectType : Nat
  id : Int
  direction : Nat
  trigger : FFTriggerC
  replay : FFReplayC
  _pad : Nat × Nat
deriving DecidableEq, Repr

/-- Go `type FFRumbleEffect struct`: the embedded `FFEffectC` and the two
magnitudes. -/
structure FFRumbleEffect where
  FFEffectC : FFEffectC
  strongMagnitude : Nat
  weakMagnitude : Nat
deriving DecidableEq, Repr

/-- Go `type FFEffect struct`: the device the effect lives on and its identifier. -/
structure FFEffect where
  dev : InputDevice
  id : Int
deriving DecidableEq, Repr

/-- A Go `error` value as produced by `ff.go`: `fmt.Errorf` with a message, a
non-zero `errno`, or an error of the write primitive. -/
inductive GoError where
  | errorf (msg : String)
  | errno (n : Nat)
  | writeErr (code : Nat)
deriving DecidableEq, Repr

/-! ## The collaborators -/

/-- What an ioctl's pointer argument points to. -/
inductive IoctlArg where
  | effect (e : FFRumbleEffect)
  | effectId (id : Int)
deriving DecidableEq, Repr

/-- One interaction with the kernel. -/
inductive Call where
  | ioctl (fd : Nat) (req : Nat) (arg : IoctlArg)
  | write (fd : Nat) (ev : InputEvent)
deriving DecidableEq, Repr

/-- The state of the outside world: the calls made so far, oldest first. -/
structure World where
  calls : List Call
deriving DecidableEq, Repr

/-- The kernel and the Go implementation, as seen from `ff.go`.
`ioctlEffect` answers an ioctl whose argument points to an effect descriptor
with the status and the descriptor as the kernel leaves it; `ioctlId` does the
same for a pointer to an effect identifier; `write` answers `binary.Write` of
an event record; `f32ToU16` is the implementation-dependent result of
converting an unrepresentable `float32` to `uint16`. -/
structure Sys where
  ioctlEffect : List Call → Nat → Nat → FFRumbleEffect → Nat × FFRumbleEffect
  ioctlId : List Call → Nat → Nat → Int → Nat × Int
  write : List Call → Nat → InputEvent → Option GoError
  f32ToU16 : Float32 → Nat

/-! ## The operations of `ff.go` -/

/-- Go `func (dev *InputDevice) SupportsFFRumble() bool`. -/
def SupportsFFRumble (k : Ecodes) (dev : InputDevice) : Bool :=
  match dev.Capabilities.lookup { Typ := k.EV_FF, Name := "EV_FF" } with
  | none => false
  | some ff => ff.any (fun ev => ev.Code == (k.FF_RUMBLE : Int))

/-- The millisecond count of `CreateFFRumbleEffect`:
`ms := uint16(duration / time.Millisecond)`, a truncating `int64` division
followed by the narrowing to 16 bits. -/
def durationMs (duration : Int) : Nat := ((duration.tdiv 1000000) % 65536).toNat

/-- Go `func (dev *InputDevice) CreateFFRumbleEffect(strongMag, weakMag float32,
duration time.Duration) (*FFEffect, error)`, with the world threaded through. -/
def CreateFFRumbleEffect (k : Ecodes) (sys : Sys) (dev : InputDevice)
    (strongMag weakMag : Float32) (duration : Int) (w : World) :
    (Option FFEffect × Option GoError) × World :=
  if strongMag.gt Float32.one || strongMag.lt Float32.zero then
    ((none, some (GoError.errorf "Strong magnitude out of range.")), w)
  else if weakMag.gt Float32.one || weakMag.lt Float32.zero then
    ((none, some (GoError.errorf "Weak magnitude out of range.")), w)
  else
    let ms := durationMs duration
    if decide (duration > 0) && ms == 0 then
      ((none, some (GoError.errorf "Duration too short.")), w)
    else if ms > 32767 then
      ((none, some (GoError.errorf "Duration too long.")), w)
    else
      let effect : FFRumbleEffect :=
        { FFEffectC :=
            { effectType := k.FF_RUMBLE
              id := -1
              direction := 0
              trigger := { button := 0, interval := 0 }
              replay := { length := ms, delay := 0 }
              _pad := (0, 0) }
          strongMagnitude :=
            Float32.toUint16 sys.f32ToU16 (strongMag.mul Float32.c65535)
          weakMagnitude :=
            Float32.toUint16 sys.f32ToU16 (weakMag.mul Float32.c65535) }
      let r := sys.ioctlEffect w.calls dev.File k.EVIOCSFF effect
      let w1 : World :=
        { calls := w.calls ++ [Call.ioctl dev.File k.EVIOCSFF (IoctlArg.effect effect)] }
      if r.1 != 0 then ((none, some (GoError.errno r.1)), w1)
      else ((some { dev := dev, id := r.2.FFEffectC.id }, none), w1)

/-- Go `func (eff *FFEffect) Play() error`. -/
def FFEffect.Play (k : Ecodes) (sys : Sys) (eff : FFEffect) (w : World) :
    Option GoError × World :=
  let ev : InputEvent :=
    { TimeSec := 0, TimeUsec := 0, Typ := k.EV_FF, Code := (eff.id % 65536).toNat, Value := 1 }
  (sys.write w.calls eff.dev.File ev, { calls := w.calls ++ [Call.write eff.dev.File ev] })

/-- Go `func (eff *FFEffect) Stop() error`. -/
def FFEffect.Stop (k : Ecodes) (sys : Sys) (eff : FFEffect) (w : World) :
    Option GoError × World :=
  let ev : InputEvent :=
    { TimeSec := 0, TimeUsec := 0, Typ := k.EV_FF, Code := (eff.id % 65536).toNat, Value := 0 }
  (sys.write w.calls eff.dev.File ev, { calls := w.calls ++ [Call.write eff.dev.File ev] })

/-- Go `func (eff *FFEffect) Delete() error`, with the world threaded through.
The ioctl is given a pointer to the handle's own `id` field, so the handle is
returned as the request leaves it. -/
def FFEffect.Delete (k : Ecodes) (sys : Sys) (eff : FFEffect) (w : World) :
    (Option GoError × FFEffect) × World :=
  let r := sys.ioctlId w.calls eff.dev.File k.EVIOCRMFF eff.id
  let eff1 : FFEffect := { dev := eff.dev, id := r.2 }
  let w1 : World :=
    { calls := w.calls ++ [Call.ioctl eff.dev.File k.EVIOCRMFF (IoctlArg.effectId eff.id)] }
  if r.1 != 0 then ((some (GoError.errno r.1), eff1), w1)
  else ((none, eff1), w1)

/-! ## Vocabulary of the statements -/

/-- A magnitude in the closed interval `[0, 1]`: `0 <= m && m <= 1`. -/
def Float32.inUnit (m : Float32) : Bool := Float32.zero.le m && m.le Float32.one

/-- A magnitude strictly inside `[0, 1]`: `0 < m && m < 1`. -/
def Float32.strictUnit (m : Float32) : Bool := Float32.zero.lt m && m.lt Float32.one

/-- A magnitude outside `[0, 1]`: `m > 1 || m < 0`, the guard of
`CreateFFRumbleEffect`. -/
def Float32.outOfRange (m : Float32) : Bool := m.gt Float32.one || m.lt Float32.zero

/-- The inputs on which none of the four guards of `CreateFFRumbleEffect`
fires. -/
def Validated (strongMag weakMag : Float32) (duration : Int) : Prop :=
  strongMag.outOfRange = false ∧ weakMag.outOfRange = false ∧
    ¬ (duration > 0 ∧ durationMs duration = 0) ∧ durationMs duration ≤ 32767

instance (strongMag weakMag : Float32) (duration : Int) :
    Decidable (Validated strongMag weakMag duration) := by
  unfold Validated; infer_instance

/-- The descriptor built by `CreateFFRumbleEffect` once the guards are passed. -/
def rumbleDescriptor (k : Ecodes) (sys : Sys) (strongMag weakMag : Float32)
    (duration : Int) : FFRumbleEffect :=
  { FFEffectC :=
      { effectType := k.FF_RUMBLE
        id := -1
        direction := 0
        trigger := { button := 0, interval := 0 }
        replay := { length := durationMs duration, delay := 0 }
        _pad := (0, 0) }
    strongMagnitude := Float32.toUint16 sys.f32ToU16 (strongMag.mul Float32.c65535)
    weakMagnitude := Float32.toUint16 sys.f32ToU16 (weakMag.mul Float32.c65535) }

/-- The upload request: the ioctl `EVIOCSFF` on the device's file, pointing to
the descriptor `e`. -/
def uploadCall (k : Ecodes) (dev : InputDevice) (e : FFRumbleEffect) : Call :=
  Call.ioctl dev.File k.EVIOCSFF (IoctlArg.effect e)

/-- A `uint16` converted to `int16`. -/
def toInt16 (c : Nat) : Int := if c % 65536 ≥ 32768 then (c % 65536 : Int) - 65536 else (c % 65536 : Int)

/-- A kernel that accepts every request, gives every uploaded effect the
identifier `7` and accepts every write; unrepresentable conversions give `0`. -/
def sampleSys : Sys :=
  { ioctlEffect := fun _ _ _ e => (0, { e with FFEffectC := { e.FFEffectC with id := 7 } })
    ioctlId := fun _ _ _ i => (0, i)
    write := fun _ _ _ => none
    f32ToU16 := fun _ => 0 }

/-- A kernel that rejects every request with status `19` and every write. -/
def failingSys : Sys :=
  { ioctlEffect := fun _ _ _ e => (19, e)
    ioctlId := fun _ _ _ i => (19, i)
    write := fun _ _ _ => some (GoError.writeErr 19)
    f32ToU16 := fun _ => 0 }

/-- A kernel that accepts every request and write, and on a removal request
stores `99` in the identifier the request points to. -/
def rewritingSys : Sys :=
  { ioctlEffect := fun _ _ _ e => (0, e)
    ioctlId := fun _ _ _ _ => (0, 99)
    write := fun _ _ _ => none
    f32ToU16 := fun _ => 0 }

/-- A device on file descriptor `3` that announces rumble support. -/
def sampleDev : InputDevice :=
  { File := 3
    Capabilities := [({ Typ := 0x15, Name := "EV_FF" }, [{ Code := 0x50, Name := "FF_RUMBLE" }])] }

/-! ## The bytes of an event record -/

/-- The `n` low bytes of `v`, least significant first. -/
def leBytes (n v : Nat) : List Nat := (List.range n).map (fun i => v / 256 ^ i % 256)

/-- Modelled from the spec: the 24-byte record `binary.Write` emits for an
`InputEvent` in little-endian order, field after field: the timestamp (two
64-bit integers), `Type` and `Code` (16 bits each) and `Value` (32 bits),
negative integers in two's complement. -/
def InputEvent.bytes (ev : InputEvent) : List Nat :=
  leBytes 8 (ev.TimeSec % 2 ^ 64).toNat ++ leBytes 8 (ev.TimeUsec % 2 ^ 64).toNat ++
    leBytes 2 (ev.Typ % 65536) ++ leBytes 2 (ev.Code % 65536) ++
    leBytes 4 (ev.Value % 2 ^ 32).toNat

/-! ## The memory image of the descriptor -/

/-- A field of a Go struct: its name, and the size and alignment of its type in
bytes. -/
structure GoField where
  name : String
  size : Nat
  align : Nat
deriving DecidableEq, Repr

/-- The least multiple of `a` that is at least `off`. -/
def alignUp (off a : Nat) : Nat := (off + a - 1) / a * a

/-- The offsets the Go compiler gives the fields of a struct: in declaration
order, each at the first offset after the previous field that is aligned for
its type. -/
def fieldOffsets : Nat → List GoField → List (String × Nat)
  | _, [] => []
  | off, f :: fs =>
    (f.name, alignUp off f.align) :: fieldOffsets (alignUp off f.align + f.size) fs

/-- The offset after the last field. -/
def fieldsEnd : Nat → List GoField → Nat
  | off, [] => off
  | off, f :: fs => fieldsEnd (alignUp off f.align + f.size) fs

/-- The alignment of a struct: the largest alignment of a field, at least 1. -/
def structAlign (fs : List GoField) : Nat := fs.foldl (fun a f => max a f.align) 1

/-- The size of a struct: the end of its fields rounded up to its alignment. -/
def structSize (fs : List GoField) : Nat := alignUp (fieldsEnd 0 fs) (structAlign fs)

/-- The offset of the field called `name`. -/
def offsetOf (fs : List GoField) (name : String) : Nat :=
  ((fieldOffsets 0 fs).lookup name).getD 0

/-- The fields of `FFTriggerC`: two `uint16`. -/
def FFTriggerC.fields : List GoField := [⟨"button", 2, 2⟩, ⟨"interval", 2, 2⟩]

/-- The fields of `FFReplayC`: two `uint16`. -/
def FFReplayC.fields : List GoField := [⟨"length", 2, 2⟩, ⟨"delay", 2, 2⟩]

/-- The fields of `FFEffectC`: `EffectType` (a `uint16`), `EffectID` (an
`int16`), a `uint16`, the two nested structs and the `[2]byte` padding. -/
def FFEffectC.fields : List GoField :=
  [⟨"effectType", 2, 2⟩, ⟨"id", 2, 2⟩, ⟨"direction", 2, 2⟩,
   ⟨"trigger", structSize FFTriggerC.fields, structAlign FFTriggerC.fields⟩,
   ⟨"replay", structSize FFReplayC.fields, structAlign FFReplayC.fields⟩,
   ⟨"_pad", 2, 1⟩]

/-- The fields of `FFRumbleEffect`: the embedded `FFEffectC` and two `uint16`. -/
def FFRumbleEffect.fields : List GoField :=
  [⟨"FFEffectC", structSize FFEffectC.fields, structAlign FFEffectC.fields⟩,
   ⟨"strongMagnitude", 2, 2⟩, ⟨"weakMagnitude", 2, 2⟩]

/-- The two bytes of a 16-bit value, least significant first. -/
def le16 (v : Nat) : List Nat := [v % 256, v / 256 % 256]

/-- Memory `mem` after the bytes `bs` are stored from offset `off` on. -/
def put : Nat → List Nat → List Nat → List Nat
  | _, [], mem => mem
  | off, b :: bs, mem => put (off + 1) bs (mem.set off b)

/-- The 16-bit little-endian value stored at offset `off`. -/
def get16 (off : Nat) (mem : List Nat) : Nat := mem.getD off 0 + 256 * mem.getD (off + 1) 0

/-- The memory image of a descriptor on a little-endian machine, the bytes the
pointer given to the ioctl points to: every field stored at its offset in
zeroed memory of the size of the struct. -/
def FFRumbleEffect.bytes (e : FFRumbleEffect) : List Nat :=
  let base := offsetOf FFRumbleEffect.fields "FFEffectC"
  let trig := base + offsetOf FFEffectC.fields "trigger"
  let rep := base + offsetOf FFEffectC.fields "replay"
  List.replicate (structSize FFRumbleEffect.fields) 0
    |> put (base + offsetOf FFEffectC.fields "effectType") (le16 e.FFEffectC.effectType)
    |> put (base + offsetOf FFEffectC.fields "id") (le16 (e.FFEffectC.id % 65536).toNat)
    |> put (base + offsetOf FFEffectC.fields "direction") (le16 e.FFEffectC.direction)
    |> put (trig + offsetOf FFTriggerC.fields "button") (le16 e.FFEffectC.trigger.button)
    |> put (trig + offsetOf FFTriggerC.fields "interval") (le16 e.FFEffectC.trigger.interval)
    |> put (rep + offsetOf FFReplayC.fields "length") (le16 e.FFEffectC.replay.length)
    |> put (rep + offsetOf FFReplayC.fields "delay") (le16 e.FFEffectC.replay.delay)
    |> put (base + offsetOf FFEffectC.fields "_pad")
        [e.FFEffectC._pad.1 % 256, e.FFEffectC._pad.2 % 256]
    |> put (offsetOf FFRumbleEffect.fields "strongMagnitude") (le16 e.strongMagnitude)
    |> put (offsetOf FFRumbleEffect.fields "weakMagnitude") (le16 e.weakMagnitude)

/-- The descriptor read back from a memory image, field by field at the offsets
of the struct. -/
def FFRumbleEffect.ofBytes (mem : List Nat) : FFRumbleEffect :=
  let base := offsetOf FFRumbleEffect.fields "FFEffectC"
  let trig := base + offsetOf FFEffectC.fields "trigger"
  let rep := base + offsetOf FFEffectC.fields "replay"
  { FFEffectC :=
      { effectType := get16 (base + offsetOf FFEffectC.fields "effectType") mem
        id := toInt16 (get16 (base + offsetOf FFEffectC.fields "id") mem)
        direction := get16 (base + offsetOf FFEffectC.fields "direction") mem
        trigger :=
          { button := get16 (trig + offsetOf FFTriggerC.fields "button") mem
            interval := get16 (trig + offsetOf FFTriggerC.fields "interval") mem }
        replay :=
          { length := get16 (rep + offsetOf FFReplayC.fields "length") mem
            delay := get16 (rep + offsetOf FFReplayC.fields "delay") mem }
        _pad := (mem.getD (base + offsetOf FFEffectC.fields "_pad") 0,
                 mem.getD (base + offsetOf FFEffectC.fields "_pad" + 1) 0) }
    strongMagnitude := get16 (offsetOf FFRumbleEffect.fields "strongMagnitude") mem
    weakMagnitude := get16 (offsetOf FFRumbleEffect.fields "weakMagnitude") mem }

/-- The field values are values of the declared types: every `uint16` field
below `65536`, the `int16` id between `-32768` and `32767`, the padding bytes
below `256`. -/
def FFRumbleEffect.WellTyped (e : FFRumbleEffect) : Prop :=
  e.FFEffectC.effectType < 65536 ∧ -32768 ≤ e.FFEffectC.id ∧ e.FFEffectC.id < 32768 ∧
  e.FFEffectC.direction < 65536 ∧
  e.FFEffectC.trigger.button < 65536 ∧ e.FFEffectC.trigger.interval < 65536 ∧
  e.FFEffectC.replay.length < 65536 ∧ e.FFEffectC.replay.delay < 65536 ∧
  e.FFEffectC._pad.1 < 256 ∧ e.FFEffectC._pad.2 < 256 ∧
  e.strongMagnitude < 65536 ∧ e.weakMagnitude < 65536

instance (e : FFRumbleEffect) : Decidable e.WellTyped := by
  unfold FFRumbleEffect.WellTyped; infer_instance

/-! ## Lemmas on the guards -/

theorem Float32.outOfRange_of_inUnit (m : Float32) (h : m.inUnit = true) :
    m.outOfRange = false := by
  simp only [Float32.inUnit, Float32.le, Bool.and_eq_true, decide_eq_true_eq] at h
  simp only [Float32.outOfRange, Float32.gt, Float32.lt, Bool.or_eq_false_iff,
    Bool.and_eq_false_iff, decide_eq_false_iff_not]
  omega

theorem Float32.inUnit_of_strictUnit (m : Float32) (h : m.strictUnit = true) :
    m.inUnit = true := by
  simp only [Float32.strictUnit, Float32.lt, Bool.and_eq_true, decide_eq_true_eq] at h
  simp only [Float32.inUnit, Float32.le, Bool.and_eq_true, decide_eq_true_eq]
  obtain ⟨⟨hn, h0⟩, ⟨hm, h1⟩⟩ := h
  exact ⟨⟨hn, by omega⟩, ⟨hm, by omega⟩⟩

theorem create_of_validated (k : Ecodes) (sys : Sys) (dev : InputDevice)
    (strongMag weakMag : Float32) (duration : Int) (w : World)
    (h : Validated strongMag weakMag duration) :
    CreateFFRumbleEffect k sys dev strongMag weakMag duration w =
      ((if (sys.ioctlEffect w.calls dev.File k.EVIOCSFF
              (rumbleDescriptor k sys strongMag weakMag duration)).1 != 0 then
          (none, some (GoError.errno (sys.ioctlEffect w.calls dev.File k.EVIOCSFF
              (rumbleDescriptor k sys strongMag weakMag duration)).1))
        else
          (some { dev := dev, id := (sys.ioctlEffect w.calls dev.File k.EVIOCSFF
              (rumbleDescriptor k sys strongMag weakMag duration)).2.FFEffectC.id }, none)),
        { calls := w.calls ++
            [uploadCall k dev (rumbleDescriptor k sys strongMag weakMag duration)] }) := by
  obtain ⟨h1, h2, h3, h4⟩ := h
  have h3' : (decide (duration > 0) && durationMs duration == 0) = false := by
    simpa using h3
  have h4' : ¬ durationMs duration > 32767 := by omega
  unfold Float32.outOfRange at h1 h2
  unfold CreateFFRumbleEffect
  simp only [h1, h2, h3', h4', Bool.false_eq_true, if_false, rumbleDescriptor, uploadCall]
  split <;> rfl

theorem durationMs_of_small (duration : Int) (h0 : 0 ≤ duration)
    (h1 : duration.tdiv 1000000 ≤ 32767) :
    (durationMs duration : Int) = duration.tdiv 1000000 := by
  have hq : 0 ≤ duration.tdiv 1000000 := Int.tdiv_nonneg h0 (by decide)
  unfold durationMs
  omega

theorem validated_of_inUnit (strongMag weakMag : Float32) (duration : Int)
    (hs : strongMag.inUnit = true) (hw : weakMag.inUnit = true)
    (hd : duration = 0 ∨ 1000000 ≤ duration) (hq : duration.tdiv 1000000 ≤ 32767) :
    Validated strongMag weakMag duration := by
  have h0 : 0 ≤ duration := by omega
  have hms := durationMs_of_small duration h0 hq
  refine ⟨Float32.outOfRange_of_inUnit _ hs, Float32.outOfRange_of_inUnit _ hw, ?_, by omega⟩
  rintro ⟨hpos, hz⟩
  have h1 : 1000000 ≤ duration := by omega
  have h2 : duration.tdiv 1000000 = duration / 1000000 :=
    Int.tdiv_eq_ediv h0 (by decide)
  omega

/-- The guards are exactly the `fmt.Errorf` results: an input is validated if
and only if the error returned is none of the four validation messages. -/
theorem validated_iff (k : Ecodes) (sys : Sys) (dev : InputDevice)
    (strongMag weakMag : Float32) (duration : Int) (w : World) :
    Validated strongMag weakMag duration ↔
      ∀ msg, (CreateFFRumbleEffect k sys dev strongMag weakMag duration w).1.2
        ≠ some (GoError.errorf msg) := by
  constructor
  · intro h msg
    rw [create_of_validated k sys dev strongMag weakMag duration w h]
    split <;> simp
  · intro h
    unfold Validated Float32.outOfRange
    unfold CreateFFRumbleEffect at h
    by_cases h1 : (strongMag.gt Float32.one || strongMag.lt Float32.zero) = true
    · exact absurd (by simp [h1]) (h "Strong magnitude out of range.")
    by_cases h2 : (weakMag.gt Float32.one || weakMag.lt Float32.zero) = true
    · exact absurd (by simp [h1, h2]) (h "Weak magnitude out of range.")
    by_cases h3 : (decide (duration > 0) && durationMs duration == 0) = true
    · exact absurd (by simp [h1, h2, h3]) (h "Duration too short.")
    by_cases h4 : durationMs duration > 32767
    · exact absurd (by simp [h1, h2, h3, h4]) (h "Duration too long.")
    refine ⟨by simpa using h1, by simpa using h2, ?_, by omega⟩
    simpa using h3

theorem Float32.toUint16_of_small (undef : Float32 → Nat) (x : Float32)
    (hn : x.isNaN = false) (hi : x.isInf = false) (hs : x.sign = false)
    (hm : x.truncMag ≤ 65535) : Float32.toUint16 undef x = x.truncMag := by
  simp [Float32.toUint16, hn, hi, hs, hm]

theorem validated_swap (a b : Float32) (duration : Int) (h : Validated a a duration)
    (hb : b.outOfRange = false) : Validated b a duration ∧ Validated a b duration :=
  ⟨⟨hb, h.1, h.2.2⟩, ⟨h.1, hb, h.2.2⟩⟩

/-! ## Lemmas on the `float32` product -/

namespace Float32

theorem ilog2_spec (fuel : Nat) : ∀ n : Nat, n ≤ fuel → 0 < n →
    2 ^ ilog2 fuel n ≤ n ∧ n < 2 ^ (ilog2 fuel n + 1) := by
  induction fuel with
  | zero => intro n h hn; omega
  | succ f ih =>
    intro n h hn
    unfold ilog2
    split
    · simp; omega
    · have h2 := ih (n / 2) (by omega) (by omega)
      rw [pow_succ, pow_succ 2 (ilog2 f (n / 2) + 1)]
      omega

theorem log2_spec (n : Nat) (hn : 0 < n) : 2 ^ log2 n ≤ n ∧ n < 2 ^ (log2 n + 1) :=
  ilog2_spec n n (Nat.le_refl n) hn

theorem rne_bounds (n s : Nat) : n / 2 ^ s ≤ rne n s ∧ rne n s ≤ n / 2 ^ s + 1 := by
  unfold rne
  dsimp only
  split <;> omega

theorem pack_spec (m T : Nat) (hm : m ≤ 16777216) (hT : 8 ≤ T) (hT2 : T ≤ 149)
    (hnorm : m < 8388608 → T = 149) :
    (pack false m (-(T : Int))).isNaN = false ∧ (pack false m (-(T : Int))).isInf = false ∧
    (pack false m (-(T : Int))).sign = false ∧
    (pack false m (-(T : Int))).truncMag = m / 2 ^ T := by
  unfold pack
  dsimp only
  by_cases h24 : m = 16777216
  · subst h24
    have h1 : ¬ (-(T : Int) + 1 + 150 ≥ 255) := by omega
    have h2 : (-(T : Int) + 1 + 150).toNat % 256 = 151 - T := by omega
    simp only [if_true, h1, if_false, Nat.lt_irrefl]
    simp only [isNaN, isInf, truncMag, sig, bexp, h2]
    have h3 : ¬ (151 - T = 0) := by omega
    have h4 : ¬ (150 ≤ 151 - T) := by omega
    have h5 : 150 - (151 - T) = T - 1 := by omega
    simp only [h3, h4, h5, if_false]
    refine ⟨by simp, by simp; omega, trivial, ?_⟩
    have h6 : (2:Nat) ^ T = 2 * 2 ^ (T - 1) := by
      rw [← pow_succ']; congr 1; omega
    rw [h6]
    norm_num
    rw [show (16777216 : Nat) = 2 * 8388608 by norm_num, Nat.mul_div_mul_left _ _ (by norm_num)]
  · simp only [h24, if_false]
    by_cases hsub : m < 8388608
    · have hT3 := hnorm hsub
      subst hT3
      simp only [hsub, if_true]
      simp only [isNaN, isInf, truncMag, sig, bexp, Nat.mod_eq_of_lt hsub]
      simp
    · have h1 : ¬ (-(T : Int) + 150 ≥ 255) := by omega
      have h2 : (-(T : Int) + 150).toNat % 256 = 150 - T := by omega
      simp only [hsub, h1, if_false]
      simp only [isNaN, isInf, truncMag, sig, bexp, h2]
      have h3 : ¬ (150 - T = 0) := by omega
      have h4 : ¬ (150 ≤ 150 - T) := by omega
      have h5 : 150 - (150 - T) = T := by omega
      have h6 : 8388608 + m % 8388608 = m := by omega
      simp only [h3, h4, h5, h6, if_false]
      refine ⟨by simp; omega, by simp; omega, trivial, trivial⟩

theorem round_spec (n E : Nat) (hn : 0 < n) (hE : 32 ≤ E) (hL : n < 2 ^ 48)
    (hcase : 16777216 ≤ n ∨ 149 < E) :
    ∃ m s T : Nat, s + T = E ∧ 8 ≤ T ∧ n / 2 ^ s ≤ m ∧ m ≤ n / 2 ^ s + 1 ∧
      (round false n (-(E : Int))).isNaN = false ∧
      (round false n (-(E : Int))).isInf = false ∧
      (round false n (-(E : Int))).sign = false ∧
      (round false n (-(E : Int))).truncMag = m / 2 ^ T := by
  obtain ⟨hL1, hL2⟩ := log2_spec n hn
  have hLle : log2 n ≤ 47 := by
    by_contra h
    have : 2 ^ 48 ≤ 2 ^ log2 n := Nat.pow_le_pow_right (by norm_num) (by omega)
    omega
  have hLge : 16777216 ≤ n → 24 ≤ log2 n := by
    intro h
    by_contra h1
    have : 2 ^ (log2 n + 1) ≤ 2 ^ 24 := Nat.pow_le_pow_right (by norm_num) (by omega)
    norm_num at this
    omega
  generalize hLdef : log2 n = L at hL1 hL2 hLle hLge
  obtain ⟨T, hTdef⟩ : ∃ T : Nat, T = min (E + 23 - L) 149 := ⟨_, rfl⟩
  have ht : max ((L : Int) + (-(E : Int)) - 23) (-149) = -(T : Int) := by omega
  have hTE : T < E := by
    rcases hcase with h | h
    · have := hLge h
      omega
    · omega
  have hs : (-(T : Int) - -(E : Int)).toNat = E - T := by omega
  have hne : ¬ (-(T : Int) ≤ -(E : Int)) := by omega
  unfold round
  rw [if_neg (by omega : ¬ n = 0)]
  simp only [hLdef, ht, hne, if_false, hs]
  have hq : n / 2 ^ (E - T) < 16777216 := by
    rw [Nat.div_lt_iff_lt_mul (by positivity)]
    have h1 : 2 ^ (L + 1) ≤ 2 ^ (24 + (E - T)) := Nat.pow_le_pow_right (by norm_num) (by omega)
    rw [pow_add 2 24 (E - T)] at h1
    norm_num at h1
    omega
  have hb := rne_bounds n (E - T)
  refine ⟨rne n (E - T), E - T, T, by omega, by omega, hb.1, hb.2,
    pack_spec _ _ (by omega) (by omega) (by omega) ?_⟩
  intro hlt
  by_contra hT
  have hT1 : E - T = L - 23 := by omega
  have h23 : 23 ≤ L := by omega
  have h2 : 8388608 ≤ n / 2 ^ (E - T) := by
    rw [Nat.le_div_iff_mul_le (by positivity), hT1]
    have h3 : (2:Nat) ^ L = 2 ^ 23 * 2 ^ (L - 23) := by
      rw [← pow_add]; congr 1; omega
    norm_num at h3
    omega
  omega

theorem sig_lt (m : Float32) : m.sig < 16777216 := by
  unfold sig
  have := m.frac.isLt
  split <;> omega

theorem strictUnit_spec (m : Float32) (h : m.strictUnit = true) :
    m.isNaN = false ∧ m.isInf = false ∧ m.sign = false ∧ 0 < m.sig ∧ m.bexp ≤ 126 ∧
      1 ≤ m.bexp ∧ m.sig < 2 ^ (150 - m.bexp) ∧ (16777216 ≤ m.sig * 16776960 ∨ m.bexp = 1) := by
  simp only [strictUnit, lt, Bool.and_eq_true, decide_eq_true_eq, Bool.not_eq_true'] at h
  obtain ⟨⟨⟨_, hn⟩, h0⟩, ⟨_, h1⟩⟩ := h
  have hz : zero.key = 0 := by decide
  have ho : one.key = ((2 ^ 149 : Nat) : Int) := by decide
  rw [hz] at h0
  rw [ho] at h1
  have hsign : m.sign = false := by
    cases hs : m.sign
    · rfl
    · simp only [key, hs, if_true] at h0
      omega
  simp only [key, hsign, Bool.false_eq_true, if_false] at h0 h1
  have h1n : m.mag < 2 ^ 149 := by exact_mod_cast h1
  have h0n : 0 < m.mag := by exact_mod_cast h0
  unfold mag at h1n h0n
  have hsig : 0 < m.sig := Nat.pos_of_mul_pos_right h0n
  have hb1 : 1 ≤ m.bexp := by
    unfold bexp
    split <;> omega
  have hpos : 0 < 2 ^ (m.bexp - 1) := by positivity
  have hb : m.bexp ≤ 149 := by
    by_contra hc
    have h2 : 2 ^ 149 ≤ 2 ^ (m.bexp - 1) := Nat.pow_le_pow_right (by norm_num) (by omega)
    have h3 : 1 * 2 ^ (m.bexp - 1) ≤ m.sig * 2 ^ (m.bexp - 1) :=
      Nat.mul_le_mul_right _ hsig
    omega
  have hsplit : (2:Nat) ^ 149 = 2 ^ (150 - m.bexp) * 2 ^ (m.bexp - 1) := by
    rw [← pow_add]; congr 1; omega
  have hlt : m.sig < 2 ^ (150 - m.bexp) := by
    rw [hsplit] at h1n
    exact Nat.lt_of_mul_lt_mul_right h1n
  have hexp : m.expo.val = 0 ∨ (8388608 ≤ m.sig ∧ m.bexp = m.expo.val) := by
    by_cases he : m.expo.val = 0
    · exact Or.inl he
    · right
      unfold sig bexp
      rw [if_neg he, if_neg he]
      exact ⟨by omega, rfl⟩
  have hb126 : m.bexp ≤ 126 := by
    rcases hexp with he | ⟨hs, _⟩
    · unfold bexp; simp [he]
    · by_contra hc
      have h2 : 2 ^ (150 - m.bexp) ≤ 2 ^ 23 := Nat.pow_le_pow_right (by norm_num) (by omega)
      norm_num at h2
      omega
  have hinf : m.isInf = false := by
    rcases hexp with he | ⟨_, hbe⟩
    · simp [isInf, he]
    · have : m.expo.val ≠ 255 := by omega
      simp [isInf, this]
  refine ⟨by simpa using hn, hinf, hsign, hsig, hb126, hb1, hlt, ?_⟩
  rcases hexp with he | ⟨hs, _⟩
  · right; unfold bexp; simp [he]
  · left; omega

theorem mul_c65535_spec (m : Float32) (h : m.strictUnit = true) :
    (m.mul c65535).isNaN = false ∧ (m.mul c65535).isInf = false ∧
    (m.mul c65535).sign = false ∧
    m.sig * 65535 / 2 ^ (150 - m.bexp) ≤ (m.mul c65535).truncMag ∧
    (m.mul c65535).truncMag ≤ m.sig * 65535 / 2 ^ (150 - m.bexp) + 1 ∧
    (m.mul c65535).truncMag ≤ 65535 := by
  obtain ⟨hn, hi, hs, hsig, hb, hb1, hlt, hcase⟩ := strictUnit_spec m h
  have hcn : c65535.isNaN = false := by decide
  have hci : c65535.isInf = false := by decide
  have hcs : c65535.sign = false := by decide
  have hcg : c65535.sig = 16776960 := by decide
  have hcb : c65535.bexp = 142 := by decide
  have he : ((m.bexp : Int) - 150 + (((142 : Nat) : Int) - 150)) = -((158 - m.bexp : Nat) : Int) := by
    omega
  have hmul : m.mul c65535 = round false (m.sig * 16776960) (-((158 - m.bexp : Nat) : Int)) := by
    unfold mul
    simp only [hn, hi, hs, hcn, hci, hcs, hcg, hcb, Bool.or_self, Bool.false_eq_true,
      if_false, he, Bool.xor_self]
  have hsl := sig_lt m
  obtain ⟨r, s, T, hsT, hT, hr1, hr2, p1, p2, p3, p4⟩ :=
    round_spec (m.sig * 16776960) (158 - m.bexp) (by omega) (by omega)
      (by norm_num; omega) (by omega)
  rw [hmul]
  have hfl : m.sig * 16776960 / 2 ^ s / 2 ^ T = m.sig * 65535 / 2 ^ (150 - m.bexp) := by
    rw [Nat.div_div_eq_div_mul, ← pow_add, hsT,
      show 158 - m.bexp = (150 - m.bexp) + 8 by omega, pow_add,
      show m.sig * 16776960 = m.sig * 65535 * 2 ^ 8 by norm_num; omega,
      Nat.mul_div_mul_right _ _ (by positivity)]
  have hTpos : 0 < 2 ^ T := by positivity
  have hlo : m.sig * 65535 / 2 ^ (150 - m.bexp) ≤ r / 2 ^ T := by
    rw [← hfl]
    exact Nat.div_le_div_right hr1
  have hhi : r / 2 ^ T ≤ m.sig * 65535 / 2 ^ (150 - m.bexp) + 1 := by
    rw [← hfl]
    calc r / 2 ^ T ≤ (m.sig * 16776960 / 2 ^ s + 2 ^ T) / 2 ^ T :=
          Nat.div_le_div_right (by omega)
      _ = m.sig * 16776960 / 2 ^ s / 2 ^ T + 1 := Nat.add_div_right _ hTpos
  have hex : m.sig * 65535 / 2 ^ (150 - m.bexp) < 65535 := by
    rw [Nat.div_lt_iff_lt_mul (by positivity)]
    have := Nat.mul_lt_mul_of_pos_right hlt (by norm_num : 0 < 65535)
    omega
  refine ⟨p1, p2, p3, ?_, ?_, ?_⟩ <;> rw [p4] <;> omega

theorem truncMag_eq_floor (x : Float32) (hs : x.sign = false) :
    x.truncMag = ⌊x.toRat⌋₊ := by
  unfold truncMag toRat
  simp only [hs, Bool.false_eq_true, if_false, one_mul]
  split
  · next h =>
    have h1 : ((x.bexp : Int) - 150) = ((x.bexp - 150 : Nat) : Int) := by omega
    rw [h1, zpow_natCast]
    have h2 : (x.sig : ℚ) * 2 ^ (x.bexp - 150) = ((x.sig * 2 ^ (x.bexp - 150) : Nat) : ℚ) := by
      push_cast; ring
    rw [h2, Nat.floor_natCast]
  · next h =>
    have h1 : ((x.bexp : Int) - 150) = -((150 - x.bexp : Nat) : Int) := by omega
    rw [h1, zpow_neg, zpow_natCast]
    have h2 : (x.sig : ℚ) * ((2:ℚ) ^ (150 - x.bexp))⁻¹
        = (x.sig : ℚ) / ((2 ^ (150 - x.bexp) : Nat) : ℚ) := by
      push_cast; rw [div_eq_mul_inv]
    rw [h2, Nat.floor_div_eq_div]

theorem exact_floor (m : Float32) (hs : m.sign = false) (hb : m.bexp ≤ 150) :
    ⌊m.toRat * 65535⌋₊ = m.sig * 65535 / 2 ^ (150 - m.bexp) := by
  unfold toRat
  simp only [hs, Bool.false_eq_true, if_false, one_mul]
  have h1 : ((m.bexp : Int) - 150) = -((150 - m.bexp : Nat) : Int) := by omega
  rw [h1, zpow_neg, zpow_natCast]
  have h2 : (m.sig : ℚ) * ((2:ℚ) ^ (150 - m.bexp))⁻¹ * 65535
      = ((m.sig * 65535 : Nat) : ℚ) / ((2 ^ (150 - m.bexp) : Nat) : ℚ) := by
    push_cast; rw [div_eq_mul_inv]; ring
  rw [h2, Nat.floor_div_eq_div]

end Float32

theorem half_toRat : Float32.half.toRat * 65535 = 65535 / 2 := by
  have h1 : Float32.half.sig = 8388608 := by decide
  have h2 : Float32.half.bexp = 126 := by decide
  have h3 : Float32.half.sign = false := by decide
  unfold Float32.toRat
  rw [h1, h2, h3]
  norm_num

theorem create_of_not_validated (k : Ecodes) (sys : Sys) (dev : InputDevice)
    (strongMag weakMag : Float32) (duration : Int) (w : World)
    (hnv : ¬ Validated strongMag weakMag duration) :
    ∃ m : String,
      (m = "Strong magnitude out of range." ∨ m = "Weak magnitude out of range." ∨
        m = "Duration too short." ∨ m = "Duration too long.") ∧
      CreateFFRumbleEffect k sys dev strongMag weakMag duration w =
        ((none, some (GoError.errorf m)), w) := by
  unfold CreateFFRumbleEffect
  dsimp only
  by_cases h1 : (strongMag.gt Float32.one || strongMag.lt Float32.zero) = true
  · rw [if_pos h1]
    exact ⟨_, Or.inl rfl, rfl⟩
  rw [if_neg h1]
  by_cases h2 : (weakMag.gt Float32.one || weakMag.lt Float32.zero) = true
  · rw [if_pos h2]
    exact ⟨_, Or.inr (Or.inl rfl), rfl⟩
  rw [if_neg h2]
  by_cases h3 : (decide (duration > 0) && durationMs duration == 0) = true
  · rw [if_pos h3]
    exact ⟨_, Or.inr (Or.inr (Or.inl rfl)), rfl⟩
  rw [if_neg h3]
  by_cases h4 : durationMs duration > 32767
  · rw [if_pos h4]
    exact ⟨_, Or.inr (Or.inr (Or.inr rfl)), rfl⟩
  · exfalso
    apply hnv
    refine ⟨by simpa [Float32.outOfRange] using h1, by simpa [Float32.outOfRange] using h2,
      ?_, by omega⟩
    simpa using h3

/-! ## Lemmas on the byte images -/

theorem InputEvent.bytes_length (ev : InputEvent) : ev.bytes.length = 24 := by
  simp [InputEvent.bytes, leBytes]

theorem layout_offsets :
    offsetOf FFRumbleEffect.fields "FFEffectC" = 0 ∧
    offsetOf FFEffectC.fields "effectType" = 0 ∧
    offsetOf FFEffectC.fields "id" = 2 ∧
    offsetOf FFEffectC.fields "direction" = 4 ∧
    offsetOf FFEffectC.fields "trigger" = 6 ∧
    offsetOf FFTriggerC.fields "button" = 0 ∧
    offsetOf FFTriggerC.fields "interval" = 2 ∧
    offsetOf FFEffectC.fields "replay" = 10 ∧
    offsetOf FFReplayC.fields "length" = 0 ∧
    offsetOf FFReplayC.fields "delay" = 2 ∧
    offsetOf FFEffectC.fields "_pad" = 14 ∧
    offsetOf FFRumbleEffect.fields "strongMagnitude" = 16 ∧
    offsetOf FFRumbleEffect.fields "weakMagnitude" = 18 ∧
    structSize FFRumbleEffect.fields = 20 := by
  decide

theorem FFRumbleEffect.bytes_eq (e : FFRumbleEffect) :
    e.bytes =
      [e.FFEffectC.effectType % 256, e.FFEffectC.effectType / 256 % 256,
       (e.FFEffectC.id % 65536).toNat % 256, (e.FFEffectC.id % 65536).toNat / 256 % 256,
       e.FFEffectC.direction % 256, e.FFEffectC.direction / 256 % 256,
       e.FFEffectC.trigger.button % 256, e.FFEffectC.trigger.button / 256 % 256,
       e.FFEffectC.trigger.interval % 256, e.FFEffectC.trigger.interval / 256 % 256,
       e.FFEffectC.replay.length % 256, e.FFEffectC.replay.length / 256 % 256,
       e.FFEffectC.replay.delay % 256, e.FFEffectC.replay.delay / 256 % 256,
       e.FFEffectC._pad.1 % 256, e.FFEffectC._pad.2 % 256,
       e.strongMagnitude % 256, e.strongMagnitude / 256 % 256,
       e.weakMagnitude % 256, e.weakMagnitude / 256 % 256] := by
  obtain ⟨o1, o2, o3, o4, o5, o6, o7, o8, o9, o10, o11, o12, o13, o14⟩ := layout_offsets
  unfold FFRumbleEffect.bytes
  simp only [o1, o2, o3, o4, o5, o6, o7, o8, o9, o10, o11, o12, o13, o14]
  simp [put, le16, List.replicate]

theorem FFRumbleEffect.ofBytes_bytes (e : FFRumbleEffect) (h : e.WellTyped) :
    FFRumbleEffect.ofBytes e.bytes = e := by
  obtain ⟨o1, o2, o3, o4, o5, o6, o7, o8, o9, o10, o11, o12, o13, o14⟩ := layout_offsets
  obtain ⟨h1, h2, h3, h4, h5, h6, h7, h8, h9, h10, h11, h12⟩ := h
  rw [FFRumbleEffect.bytes_eq]
  unfold FFRumbleEffect.ofBytes
  simp only [o1, o2, o3, o4, o5, o6, o7, o8, o9, o10, o11, o12, o13]
  obtain ⟨⟨ty, id, dir, ⟨b, i⟩, ⟨l, d⟩, ⟨p1, p2⟩⟩, sm, wm⟩ := e
  simp only [get16, List.getD, toInt16] at *
  simp only [FFRumbleEffect.mk.injEq, FFEffectC.mk.injEq, FFTriggerC.mk.injEq,
    FFReplayC.mk.injEq, Prod.mk.injEq]
  simp
  refine ⟨⟨?_, ?_, ?_, ⟨?_, ?_⟩, ⟨?_, ?_⟩, ?_, ?_⟩, ?_, ?_⟩ <;> omega

/-! ## The claims -/

/-- C1 (the code departs from the claim): a duration of 65537 ms has a
whole-millisecond count above 32767, yet `CreateFFRumbleEffect` does not fail
with "Duration too long.": the count is narrowed to 16 bits before the
comparison, the guards are passed and a descriptor of length 1 ms is
uploaded. -/
theorem C1_long_duration_wraps (k : Ecodes) (sys : Sys) (dev : InputDevice) (w : World) :
    (65537000000 : Int).tdiv 1000000 > 32767 ∧
    Float32.half.inUnit = true ∧
    (CreateFFRumbleEffect k sys dev Float32.half Float32.half 65537000000 w).1.2
      ≠ some (GoError.errorf "Duration too long.") ∧
    ∃ e : FFRumbleEffect,
      (CreateFFRumbleEffect k sys dev Float32.half Float32.half 65537000000 w).2.calls
        = w.calls ++ [Call.ioctl dev.File k.EVIOCSFF (IoctlArg.effect e)] ∧
      e.FFEffectC.replay.length = 1 := by
  have hv : Validated Float32.half Float32.half 65537000000 := by decide
  refine ⟨by decide, by decide, (validated_iff k sys dev _ _ _ w).1 hv _, ?_⟩
  rw [create_of_validated k sys dev _ _ _ w hv]
  exact ⟨_, rfl, show durationMs 65537000000 = 1 by decide⟩

/-- C2 (counterexample): at magnitude 0.5, strictly inside [0,1], with 200 ms,
the uploaded descriptor holds 32767 in both magnitude fields, while
`round(0.5 * 65535)` is 32768. -/
theorem C2_half_is_truncated :
    Float32.half.strictUnit = true ∧
    round (Float32.half.toRat * 65535) = (32768 : Int) ∧
    (CreateFFRumbleEffect linuxEcodes sampleSys sampleDev Float32.half Float32.half
        200000000 { calls := [] }).2.calls =
      [Call.ioctl 3 0x40304580 (IoctlArg.effect
        { FFEffectC :=
            { effectType := 0x50, id := -1, direction := 0,
              trigger := { button := 0, interval := 0 },
              replay := { length := 200, delay := 0 }, _pad := (0, 0) },
          strongMagnitude := 32767, weakMagnitude := 32767 })] := by
  refine ⟨by decide, ?_, by decide⟩
  rw [half_toRat, round_eq, Int.floor_eq_iff]
  norm_num

/-- C2 (amended): for magnitudes strictly inside [0,1] and a duration that
passes the duration guards, `CreateFFRumbleEffect` returns no validation error
and uploads a descriptor whose magnitude fields are the integer parts of the
`float32` products `strongMag * 65535` and `weakMag * 65535`: the fraction is
discarded, not rounded to nearest. Each field is the integer part of the exact
product or one more. -/
theorem C2_magnitudes_truncated (k : Ecodes) (sys : Sys) (dev : InputDevice)
    (strongMag weakMag : Float32) (duration : Int) (w : World)
    (hs : strongMag.strictUnit = true) (hw : weakMag.strictUnit = true)
    (hd : ¬ (duration > 0 ∧ durationMs duration = 0)) (hl : durationMs duration ≤ 32767) :
    (∀ msg, (CreateFFRumbleEffect k sys dev strongMag weakMag duration w).1.2
      ≠ some (GoError.errorf msg)) ∧
    ∃ e : FFRumbleEffect,
      (CreateFFRumbleEffect k sys dev strongMag weakMag duration w).2.calls
        = w.calls ++ [Call.ioctl dev.File k.EVIOCSFF (IoctlArg.effect e)] ∧
      e.strongMagnitude = ⌊(strongMag.mul Float32.c65535).toRat⌋₊ ∧
      e.weakMagnitude = ⌊(weakMag.mul Float32.c65535).toRat⌋₊ ∧
      ⌊strongMag.toRat * 65535⌋₊ ≤ e.strongMagnitude ∧
      e.strongMagnitude ≤ ⌊strongMag.toRat * 65535⌋₊ + 1 ∧
      ⌊weakMag.toRat * 65535⌋₊ ≤ e.weakMagnitude ∧
      e.weakMagnitude ≤ ⌊weakMag.toRat * 65535⌋₊ + 1 := by
  have hv : Validated strongMag weakMag duration :=
    ⟨Float32.outOfRange_of_inUnit _ (Float32.inUnit_of_strictUnit _ hs),
      Float32.outOfRange_of_inUnit _ (Float32.inUnit_of_strictUnit _ hw), hd, hl⟩
  obtain ⟨s1, s2, s3, s4, s5, s6⟩ := Float32.mul_c65535_spec strongMag hs
  obtain ⟨w1, w2, w3, w4, w5, w6⟩ := Float32.mul_c65535_spec weakMag hw
  obtain ⟨_, _, ss, _, sb, _⟩ := Float32.strictUnit_spec strongMag hs
  obtain ⟨_, _, ws, _, wb, _⟩ := Float32.strictUnit_spec weakMag hw
  have es : Float32.toUint16 sys.f32ToU16 (strongMag.mul Float32.c65535)
      = (strongMag.mul Float32.c65535).truncMag :=
    Float32.toUint16_of_small _ _ s1 s2 s3 s6
  have ew : Float32.toUint16 sys.f32ToU16 (weakMag.mul Float32.c65535)
      = (weakMag.mul Float32.c65535).truncMag :=
    Float32.toUint16_of_small _ _ w1 w2 w3 w6
  refine ⟨(validated_iff k sys dev _ _ _ w).1 hv, ?_⟩
  rw [create_of_validated k sys dev _ _ _ w hv]
  refine ⟨rumbleDescriptor k sys strongMag weakMag duration, rfl, ?_, ?_, ?_, ?_, ?_, ?_⟩
  · exact es.trans (Float32.truncMag_eq_floor _ s3)
  · exact ew.trans (Float32.truncMag_eq_floor _ w3)
  · rw [Float32.exact_floor _ ss (by omega)]
    exact s4.trans (le_of_eq es.symm)
  · rw [Float32.exact_floor _ ss (by omega)]
    exact (le_of_eq es).trans s5
  · rw [Float32.exact_floor _ ws (by omega)]
    exact w4.trans (le_of_eq ew.symm)
  · rw [Float32.exact_floor _ ws (by omega)]
    exact (le_of_eq ew).trans w5

/-- Witness of C2 (amended): magnitudes 0.5 and 0.5, 200 ms. -/
theorem C2_magnitudes_truncated_witness :
    ∃ e : FFRumbleEffect,
      (CreateFFRumbleEffect linuxEcodes sampleSys sampleDev Float32.half Float32.half
          200000000 { calls := [] }).2.calls
        = [] ++ [Call.ioctl sampleDev.File linuxEcodes.EVIOCSFF (IoctlArg.effect e)] ∧
      e.strongMagnitude = ⌊(Float32.half.mul Float32.c65535).toRat⌋₊ ∧
      e.weakMagnitude = ⌊(Float32.half.mul Float32.c65535).toRat⌋₊ ∧
      ⌊Float32.half.toRat * 65535⌋₊ ≤ e.strongMagnitude ∧
      e.strongMagnitude ≤ ⌊Float32.half.toRat * 65535⌋₊ + 1 ∧
      ⌊Float32.half.toRat * 65535⌋₊ ≤ e.weakMagnitude ∧
      e.weakMagnitude ≤ ⌊Float32.half.toRat * 65535⌋₊ + 1 :=
  (C2_magnitudes_truncated linuxEcodes sampleSys sampleDev Float32.half Float32.half
    200000000 { calls := [] } (by decide) (by decide) (by decide) (by decide)).2

/-- C3: when the strong or the weak magnitude is greater than 1.0 or less than
0.0, whatever the duration, `CreateFFRumbleEffect` returns a nil handle and an
out-of-range error: the strong-magnitude message when the strong magnitude is
out of range, the weak-magnitude message otherwise. -/
theorem C3_magnitude_out_of_range (k : Ecodes) (sys : Sys) (dev : InputDevice)
    (strongMag weakMag : Float32) (duration : Int) (w : World)
    (h : strongMag.gt Float32.one = true ∨ strongMag.lt Float32.zero = true ∨
      weakMag.gt Float32.one = true ∨ weakMag.lt Float32.zero = true) :
    (CreateFFRumbleEffect k sys dev strongMag weakMag duration w).1 =
      (none, some (GoError.errorf
        (if strongMag.gt Float32.one = true ∨ strongMag.lt Float32.zero = true then
          "Strong magnitude out of range." else "Weak magnitude out of range."))) := by
  unfold CreateFFRumbleEffect
  by_cases h1 : strongMag.gt Float32.one = true ∨ strongMag.lt Float32.zero = true
  · have h1' : (strongMag.gt Float32.one || strongMag.lt Float32.zero) = true := by
      simpa using h1
    simp [h1', h1]
  · have h1' : (strongMag.gt Float32.one || strongMag.lt Float32.zero) = false := by
      simpa using h1
    have h2 : (weakMag.gt Float32.one || weakMag.lt Float32.zero) = true := by
      rcases h with h | h | h | h
      · exact absurd (Or.inl h) h1
      · exact absurd (Or.inr h) h1
      · simp [h]
      · simp [h]
    rw [if_neg h1]
    simp only [h1', h2, Bool.false_eq_true, if_false, if_true]

/-- Witness of C3: a strong magnitude of infinity, weak magnitude 0.5, 200 ms. -/
theorem C3_magnitude_out_of_range_witness :
    (Float32.inf false).gt Float32.one = true ∧
    (CreateFFRumbleEffect linuxEcodes sampleSys sampleDev (Float32.inf false) Float32.half
        200000000 { calls := [] }).1 =
      (none, some (GoError.errorf "Strong magnitude out of range.")) :=
  ⟨by decide, C3_magnitude_out_of_range linuxEcodes sampleSys sampleDev (Float32.inf false)
    Float32.half 200000000 { calls := [] } (Or.inl (by decide))⟩

/-- C4: for a duration strictly between zero and one millisecond and magnitudes
in [0,1], `CreateFFRumbleEffect` returns a nil handle and the error
"Duration too short.". -/
theorem C4_duration_too_short (k : Ecodes) (sys : Sys) (dev : InputDevice)
    (strongMag weakMag : Float32) (duration : Int) (w : World)
    (hs : strongMag.inUnit = true) (hw : weakMag.inUnit = true)
    (h0 : 0 < duration) (h1 : duration < 1000000) :
    (CreateFFRumbleEffect k sys dev strongMag weakMag duration w).1 =
      (none, some (GoError.errorf "Duration too short.")) := by
  have hs' := Float32.outOfRange_of_inUnit _ hs
  have hw' := Float32.outOfRange_of_inUnit _ hw
  unfold Float32.outOfRange at hs' hw'
  have hq : duration.tdiv 1000000 = 0 := Int.tdiv_eq_zero_of_lt (by omega) h1
  have hms : durationMs duration = 0 := by simp [durationMs, hq]
  unfold CreateFFRumbleEffect
  simp [hs', hw', hms, h0]

/-- Witness of C4: half a millisecond at magnitudes 0.5 and 1.0. -/
theorem C4_duration_too_short_witness :
    (CreateFFRumbleEffect linuxEcodes sampleSys sampleDev Float32.half Float32.one
        500000 { calls := [] }).1 =
      (none, some (GoError.errorf "Duration too short.")) :=
  C4_duration_too_short linuxEcodes sampleSys sampleDev Float32.half Float32.one 500000
    { calls := [] } (by decide) (by decide) (by decide) (by decide)

/-- C5: for a duration that is zero or at least one millisecond, with a
whole-millisecond count of at most 32767, and magnitudes in [0,1],
`CreateFFRumbleEffect` returns no validation error and uploads a descriptor
whose `replay.length` is the duration divided by one millisecond, truncated;
when the upload request returns status 0 the call succeeds with a handle and
no error. -/
theorem C5_valid_duration (k : Ecodes) (sys : Sys) (dev : InputDevice)
    (strongMag weakMag : Float32) (duration : Int) (w : World)
    (hs : strongMag.inUnit = true) (hw : weakMag.inUnit = true)
    (hd : duration = 0 ∨ 1000000 ≤ duration) (hq : duration.tdiv 1000000 ≤ 32767) :
    (∀ msg, (CreateFFRumbleEffect k sys dev strongMag weakMag duration w).1.2
      ≠ some (GoError.errorf msg)) ∧
    ∃ e : FFRumbleEffect,
      (CreateFFRumbleEffect k sys dev strongMag weakMag duration w).2.calls
        = w.calls ++ [Call.ioctl dev.File k.EVIOCSFF (IoctlArg.effect e)] ∧
      (e.FFEffectC.replay.length : Int) = duration.tdiv 1000000 ∧
      ((sys.ioctlEffect w.calls dev.File k.EVIOCSFF e).1 = 0 →
        (CreateFFRumbleEffect k sys dev strongMag weakMag duration w).1 =
          (some { dev := dev,
                  id := (sys.ioctlEffect w.calls dev.File k.EVIOCSFF e).2.FFEffectC.id },
            none)) := by
  have hv := validated_of_inUnit strongMag weakMag duration hs hw hd hq
  refine ⟨(validated_iff k sys dev _ _ _ w).1 hv, ?_⟩
  rw [create_of_validated k sys dev _ _ _ w hv]
  refine ⟨rumbleDescriptor k sys strongMag weakMag duration, rfl,
    durationMs_of_small duration (by omega) hq, ?_⟩
  intro h0
  simp [h0]

/-- Witness of C5: exactly 32767 ms, at magnitudes 0.5 and 1.0 on a kernel that
accepts the upload and assigns id 7, uploads length 32767 and succeeds. -/
theorem C5_valid_duration_witness :
    (∃ e : FFRumbleEffect,
      (CreateFFRumbleEffect linuxEcodes sampleSys sampleDev Float32.half Float32.one
          32767000000 { calls := [] }).2.calls
        = [Call.ioctl sampleDev.File linuxEcodes.EVIOCSFF (IoctlArg.effect e)] ∧
      e.FFEffectC.replay.length = 32767) ∧
    (CreateFFRumbleEffect linuxEcodes sampleSys sampleDev Float32.half Float32.one
        32767000000 { calls := [] }).1 = (some { dev := sampleDev, id := 7 }, none) := by
  obtain ⟨_, e, hc, hl, hok⟩ := C5_valid_duration linuxEcodes sampleSys sampleDev
    Float32.half Float32.one 32767000000 { calls := [] } (by decide) (by decide)
    (Or.inr (by decide)) (by decide)
  have hq : (32767000000 : Int).tdiv 1000000 = 32767 := by decide
  rw [hq] at hl
  exact ⟨⟨e, hc, by exact_mod_cast hl⟩, hok rfl⟩

/-- C6: the boundary magnitudes are accepted and encoded exactly. For every
duration and every other-channel magnitude that pass the guards, a strong
magnitude of 1.0 is uploaded as 65535 and of 0.0 as 0, and likewise a weak
magnitude of 1.0 as 65535 and of 0.0 as 0. -/
theorem C6_boundary_magnitudes (k : Ecodes) (sys : Sys) (dev : InputDevice)
    (other : Float32) (duration : Int) (w : World)
    (h : Validated other other duration) :
    (∃ e : FFRumbleEffect,
      (CreateFFRumbleEffect k sys dev Float32.one other duration w).2.calls
        = w.calls ++ [Call.ioctl dev.File k.EVIOCSFF (IoctlArg.effect e)] ∧
      e.strongMagnitude = 65535) ∧
    (∃ e : FFRumbleEffect,
      (CreateFFRumbleEffect k sys dev Float32.zero other duration w).2.calls
        = w.calls ++ [Call.ioctl dev.File k.EVIOCSFF (IoctlArg.effect e)] ∧
      e.strongMagnitude = 0) ∧
    (∃ e : FFRumbleEffect,
      (CreateFFRumbleEffect k sys dev other Float32.one duration w).2.calls
        = w.calls ++ [Call.ioctl dev.File k.EVIOCSFF (IoctlArg.effect e)] ∧
      e.weakMagnitude = 65535) ∧
    (∃ e : FFRumbleEffect,
      (CreateFFRumbleEffect k sys dev other Float32.zero duration w).2.calls
        = w.calls ++ [Call.ioctl dev.File k.EVIOCSFF (IoctlArg.effect e)] ∧
      e.weakMagnitude = 0) := by
  have h1 := validated_swap other Float32.one duration h (by decide)
  have h0 := validated_swap other Float32.zero duration h (by decide)
  have e1 : Float32.toUint16 sys.f32ToU16 (Float32.one.mul Float32.c65535) = 65535 := by
    rw [Float32.toUint16_of_small _ _ (by decide) (by decide) (by decide) (by decide)]
    decide
  have e0 : Float32.toUint16 sys.f32ToU16 (Float32.zero.mul Float32.c65535) = 0 := by
    rw [Float32.toUint16_of_small _ _ (by decide) (by decide) (by decide) (by decide)]
    decide
  refine ⟨?_, ?_, ?_, ?_⟩
  · rw [create_of_validated k sys dev _ _ _ w h1.1]
    exact ⟨_, rfl, e1⟩
  · rw [create_of_validated k sys dev _ _ _ w h0.1]
    exact ⟨_, rfl, e0⟩
  · rw [create_of_validated k sys dev _ _ _ w h1.2]
    exact ⟨_, rfl, e1⟩
  · rw [create_of_validated k sys dev _ _ _ w h0.2]
    exact ⟨_, rfl, e0⟩

/-- Witness of C6: the other channel at 0.5, 200 ms; the strong channel at 1.0
is uploaded as 65535. -/
theorem C6_boundary_magnitudes_witness :
    ∃ e : FFRumbleEffect,
      (CreateFFRumbleEffect linuxEcodes sampleSys sampleDev Float32.one Float32.half
          200000000 { calls := [] }).2.calls
        = [] ++ [Call.ioctl sampleDev.File linuxEcodes.EVIOCSFF (IoctlArg.effect e)] ∧
      e.strongMagnitude = 65535 :=
  (C6_boundary_magnitudes linuxEcodes sampleSys sampleDev Float32.half 200000000
    { calls := [] } (by decide)).1

/-- C7: on every validated input the descriptor handed to the upload request
has `effectType = FF_RUMBLE`, `id = -1`, `direction = 0`, a zero trigger, a zero
replay delay and two zero padding bytes, whatever the magnitudes, the duration,
the kernel and the calls made before. -/
theorem C7_descriptor_constants (k : Ecodes) (sys : Sys) (dev : InputDevice)
    (strongMag weakMag : Float32) (duration : Int) (w : World)
    (h : Validated strongMag weakMag duration) :
    ∃ e : FFRumbleEffect,
      (CreateFFRumbleEffect k sys dev strongMag weakMag duration w).2.calls
        = w.calls ++ [Call.ioctl dev.File k.EVIOCSFF (IoctlArg.effect e)] ∧
      e.FFEffectC.effectType = k.FF_RUMBLE ∧
      e.FFEffectC.id = -1 ∧
      e.FFEffectC.direction = 0 ∧
      e.FFEffectC.trigger.button = 0 ∧
      e.FFEffectC.trigger.interval = 0 ∧
      e.FFEffectC.replay.delay = 0 ∧
      e.FFEffectC._pad = (0, 0) := by
  rw [create_of_validated k sys dev _ _ _ w h]
  exact ⟨rumbleDescriptor k sys strongMag weakMag duration, rfl, rfl, rfl, rfl, rfl, rfl,
    rfl, rfl⟩

/-- Witness of C7: magnitudes 0.5, 200 ms, after an earlier upload on the same
device. -/
theorem C7_descriptor_constants_witness :
    ∃ e : FFRumbleEffect,
      (CreateFFRumbleEffect linuxEcodes sampleSys sampleDev Float32.half Float32.half
          200000000 (CreateFFRumbleEffect linuxEcodes sampleSys sampleDev Float32.one
            Float32.zero 1000000 { calls := [] }).2).2.calls
        = (CreateFFRumbleEffect linuxEcodes sampleSys sampleDev Float32.one
            Float32.zero 1000000 { calls := [] }).2.calls
          ++ [Call.ioctl sampleDev.File linuxEcodes.EVIOCSFF (IoctlArg.effect e)] ∧
      e.FFEffectC.effectType = linuxEcodes.FF_RUMBLE ∧
      e.FFEffectC.id = -1 ∧
      e.FFEffectC.direction = 0 ∧
      e.FFEffectC.trigger.button = 0 ∧
      e.FFEffectC.trigger.interval = 0 ∧
      e.FFEffectC.replay.delay = 0 ∧
      e.FFEffectC._pad = (0, 0) :=
  C7_descriptor_constants linuxEcodes sampleSys sampleDev Float32.half Float32.half
    200000000 _ (by decide)

/-- C8: on every validated input `CreateFFRumbleEffect` issues exactly one
request, the ioctl `EVIOCSFF` on the device's file; a non-zero status gives a
nil handle and that status as the error; status zero gives no error and a
handle on the receiver whose id is the id the kernel left in the descriptor;
exactly one of handle and error is returned. -/
theorem C8_upload_result (k : Ecodes) (sys : Sys) (dev : InputDevice)
    (strongMag weakMag : Float32) (duration : Int) (w : World)
    (h : Validated strongMag weakMag duration) :
    ∃ e : FFRumbleEffect,
      (CreateFFRumbleEffect k sys dev strongMag weakMag duration w).2.calls
        = w.calls ++ [Call.ioctl dev.File k.EVIOCSFF (IoctlArg.effect e)] ∧
      ((sys.ioctlEffect w.calls dev.File k.EVIOCSFF e).1 ≠ 0 →
        (CreateFFRumbleEffect k sys dev strongMag weakMag duration w).1 =
          (none, some (GoError.errno (sys.ioctlEffect w.calls dev.File k.EVIOCSFF e).1))) ∧
      ((sys.ioctlEffect w.calls dev.File k.EVIOCSFF e).1 = 0 →
        (CreateFFRumbleEffect k sys dev strongMag weakMag duration w).1 =
          (some { dev := dev,
                  id := (sys.ioctlEffect w.calls dev.File k.EVIOCSFF e).2.FFEffectC.id },
            none)) ∧
      ((CreateFFRumbleEffect k sys dev strongMag weakMag duration w).1.1.isSome
        ≠ (CreateFFRumbleEffect k sys dev strongMag weakMag duration w).1.2.isSome) := by
  rw [create_of_validated k sys dev _ _ _ w h]
  refine ⟨rumbleDescriptor k sys strongMag weakMag duration, rfl, ?_, ?_, ?_⟩
  · intro h0
    simp [h0]
  · intro h0
    simp [h0]
  · dsimp only
    split <;> simp

/-- Witness of C8: the kernel that assigns id 7 gives a handle with id 7 and no
error. -/
theorem C8_upload_result_witness :
    (CreateFFRumbleEffect linuxEcodes sampleSys sampleDev Float32.half Float32.half
        200000000 { calls := [] }).1 = (some { dev := sampleDev, id := 7 }, none) := by
  obtain ⟨e, _, _, h0, _⟩ := C8_upload_result linuxEcodes sampleSys sampleDev Float32.half
    Float32.half 200000000 { calls := [] } (by decide)
  exact h0 rfl

/-- C9: for a handle whose id `i` is a signed 16-bit value, `Play` writes one
event record with type `EV_FF`, code `i mod 65536` (converting it back to a
signed 16-bit value gives `i`), value 1 and a zero timestamp, and returns what
the write primitive returns; `Stop` does the same with value 0. -/
theorem C9_play_stop_events (k : Ecodes) (sys : Sys) (eff : FFEffect) (w : World)
    (hlo : -32768 ≤ eff.id) (hhi : eff.id < 32768) :
    ∃ code : Nat,
      (code : Int) = eff.id % 65536 ∧ toInt16 code = eff.id ∧
      eff.Play k sys w =
        (sys.write w.calls eff.dev.File
            { TimeSec := 0, TimeUsec := 0, Typ := k.EV_FF, Code := code, Value := 1 },
          { calls := w.calls ++ [Call.write eff.dev.File
            { TimeSec := 0, TimeUsec := 0, Typ := k.EV_FF, Code := code, Value := 1 }] }) ∧
      eff.Stop k sys w =
        (sys.write w.calls eff.dev.File
            { TimeSec := 0, TimeUsec := 0, Typ := k.EV_FF, Code := code, Value := 0 },
          { calls := w.calls ++ [Call.write eff.dev.File
            { TimeSec := 0, TimeUsec := 0, Typ := k.EV_FF, Code := code, Value := 0 }] }) := by
  refine ⟨(eff.id % 65536).toNat, by omega, ?_, rfl, rfl⟩
  unfold toInt16
  split <;> omega

/-- Witness of C9: the handle with id -2 plays with code 65534, and the write
result is returned. -/
theorem C9_play_stop_events_witness :
    ∃ code : Nat,
      (code : Int) = (-2 : Int) % 65536 ∧ toInt16 code = -2 ∧
      FFEffect.Play linuxEcodes failingSys { dev := sampleDev, id := -2 } { calls := [] } =
        (failingSys.write [] sampleDev.File
            { TimeSec := 0, TimeUsec := 0, Typ := linuxEcodes.EV_FF, Code := code, Value := 1 },
          { calls := [] ++ [Call.write sampleDev.File
            { TimeSec := 0, TimeUsec := 0, Typ := linuxEcodes.EV_FF, Code := code,
              Value := 1 }] }) ∧
      FFEffect.Stop linuxEcodes failingSys { dev := sampleDev, id := -2 } { calls := [] } =
        (failingSys.write [] sampleDev.File
            { TimeSec := 0, TimeUsec := 0, Typ := linuxEcodes.EV_FF, Code := code, Value := 0 },
          { calls := [] ++ [Call.write sampleDev.File
            { TimeSec := 0, TimeUsec := 0, Typ := linuxEcodes.EV_FF, Code := code,
              Value := 0 }] }) :=
  C9_play_stop_events linuxEcodes failingSys { dev := sampleDev, id := -2 } { calls := [] }
    (by decide) (by decide)

/-- C10: `SupportsFFRumble` is true exactly when the capability map has an
entry under the key `(EV_FF, "EV_FF")` whose code list holds a code equal to
`FF_RUMBLE`; it is false when the key is absent and when the list is empty.
The query is a function of the device alone and returns only the boolean. -/
theorem C10_supports_rumble (k : Ecodes) (dev : InputDevice) :
    (SupportsFFRumble k dev = true ↔
      ∃ ff, dev.Capabilities.lookup { Typ := k.EV_FF, Name := "EV_FF" } = some ff ∧
        ∃ ev ∈ ff, ev.Code = (k.FF_RUMBLE : Int)) ∧
    (dev.Capabilities.lookup { Typ := k.EV_FF, Name := "EV_FF" } = none →
      SupportsFFRumble k dev = false) ∧
    (dev.Capabilities.lookup { Typ := k.EV_FF, Name := "EV_FF" } = some [] →
      SupportsFFRumble k dev = false) := by
  unfold SupportsFFRumble
  refine ⟨?_, ?_, ?_⟩
  · cases hl : dev.Capabilities.lookup { Typ := k.EV_FF, Name := "EV_FF" } with
    | none => simp
    | some ff => simp [List.any_eq_true]
  · intro hl
    simp [hl]
  · intro hl
    simp [hl]

/-- Witness of C10: the sample device supports rumble; a device with an empty
force-feedback list and a device without the key do not. -/
theorem C10_supports_rumble_witness :
    SupportsFFRumble linuxEcodes sampleDev = true ∧
    SupportsFFRumble linuxEcodes
      { File := 3, Capabilities := [({ Typ := 0x15, Name := "EV_FF" }, [])] } = false ∧
    SupportsFFRumble linuxEcodes { File := 3, Capabilities := [] } = false :=
  ⟨(C10_supports_rumble linuxEcodes sampleDev).1.2
      ⟨[{ Code := 0x50, Name := "FF_RUMBLE" }], by decide, { Code := 0x50, Name := "FF_RUMBLE" },
        by decide, by decide⟩,
    (C10_supports_rumble linuxEcodes _).2.2 (by decide),
    (C10_supports_rumble linuxEcodes _).2.1 (by decide)⟩

/-- C11: the memory image of the rumble descriptor, as the Go compiler lays
the struct out, has its fields in declaration order at the offsets effectType 0,
id 2, direction 4, trigger.button 6, trigger.interval 8, replay.length 10,
replay.delay 12, padding 14 and 15, strongMagnitude 16, weakMagnitude 18; its
size is 20 bytes, the sum of the sizes of the fields, so no padding is inserted
beyond the two declared bytes; the image is the little-endian bytes of the
fields one after the other, and reading the fields back from the image of a
descriptor whose field values are values of their types gives the descriptor. -/
theorem C11_descriptor_layout (e : FFRumbleEffect) (h : e.WellTyped) :
    (offsetOf FFRumbleEffect.fields "FFEffectC" + offsetOf FFEffectC.fields "effectType" = 0 ∧
     offsetOf FFRumbleEffect.fields "FFEffectC" + offsetOf FFEffectC.fields "id" = 2 ∧
     offsetOf FFRumbleEffect.fields "FFEffectC" + offsetOf FFEffectC.fields "direction" = 4 ∧
     offsetOf FFRumbleEffect.fields "FFEffectC" + offsetOf FFEffectC.fields "trigger"
       + offsetOf FFTriggerC.fields "button" = 6 ∧
     offsetOf FFRumbleEffect.fields "FFEffectC" + offsetOf FFEffectC.fields "trigger"
       + offsetOf FFTriggerC.fields "interval" = 8 ∧
     offsetOf FFRumbleEffect.fields "FFEffectC" + offsetOf FFEffectC.fields "replay"
       + offsetOf FFReplayC.fields "length" = 10 ∧
     offsetOf FFRumbleEffect.fields "FFEffectC" + offsetOf FFEffectC.fields "replay"
       + offsetOf FFReplayC.fields "delay" = 12 ∧
     offsetOf FFRumbleEffect.fields "FFEffectC" + offsetOf FFEffectC.fields "_pad" = 14 ∧
     offsetOf FFRumbleEffect.fields "strongMagnitude" = 16 ∧
     offsetOf FFRumbleEffect.fields "weakMagnitude" = 18) ∧
    structSize FFRumbleEffect.fields = 20 ∧
    (2 + 2 + 2 + (2 + 2) + (2 + 2) + 2) + 2 + 2 = structSize FFRumbleEffect.fields ∧
    e.bytes.length = 20 ∧
    e.bytes =
      le16 e.FFEffectC.effectType ++ le16 (e.FFEffectC.id % 65536).toNat ++
      le16 e.FFEffectC.direction ++
      le16 e.FFEffectC.trigger.button ++ le16 e.FFEffectC.trigger.interval ++
      le16 e.FFEffectC.replay.length ++ le16 e.FFEffectC.replay.delay ++
      [e.FFEffectC._pad.1 % 256, e.FFEffectC._pad.2 % 256] ++
      le16 e.strongMagnitude ++ le16 e.weakMagnitude ∧
    FFRumbleEffect.ofBytes e.bytes = e := by
  refine ⟨by decide, by decide, by decide, ?_, ?_, FFRumbleEffect.ofBytes_bytes e h⟩
  · rw [FFRumbleEffect.bytes_eq]; rfl
  · rw [FFRumbleEffect.bytes_eq]; rfl

/-- Witness of C11: the descriptor uploaded for magnitudes 0.5 and 200 ms. -/
theorem C11_descriptor_layout_witness :
    FFRumbleEffect.ofBytes (FFRumbleEffect.bytes
      { FFEffectC :=
          { effectType := 0x50, id := -1, direction := 0,
            trigger := { button := 0, interval := 0 },
            replay := { length := 200, delay := 0 }, _pad := (0, 0) },
        strongMagnitude := 32767, weakMagnitude := 32767 }) =
      { FFEffectC :=
          { effectType := 0x50, id := -1, direction := 0,
            trigger := { button := 0, interval := 0 },
            replay := { length := 200, delay := 0 }, _pad := (0, 0) },
        strongMagnitude := 32767, weakMagnitude := 32767 } :=
  (C11_descriptor_layout _ (by decide)).2.2.2.2.2

/-- C12: validation happens before any kernel interaction. Whenever
`CreateFFRumbleEffect` returns one of its validation errors (a `fmt.Errorf`
error: magnitude out of range, duration too short, duration too long), no
handle is returned and the world is unchanged: no control request and no event
write has been issued. -/
theorem C12_validation_before_kernel (k : Ecodes) (sys : Sys) (dev : InputDevice)
    (strongMag weakMag : Float32) (duration : Int) (w : World) (msg : String)
    (h : (CreateFFRumbleEffect k sys dev strongMag weakMag duration w).1.2
      = some (GoError.errorf msg)) :
    (CreateFFRumbleEffect k sys dev strongMag weakMag duration w).2 = w ∧
    (CreateFFRumbleEffect k sys dev strongMag weakMag duration w).2.calls = w.calls ∧
    (CreateFFRumbleEffect k sys dev strongMag weakMag duration w).1.1 = none ∧
    (msg = "Strong magnitude out of range." ∨ msg = "Weak magnitude out of range." ∨
      msg = "Duration too short." ∨ msg = "Duration too long.") := by
  have hnv : ¬ Validated strongMag weakMag duration := fun hv =>
    (validated_iff k sys dev strongMag weakMag duration w).1 hv msg h
  obtain ⟨m, hm, heq⟩ := create_of_not_validated k sys dev strongMag weakMag duration w hnv
  rw [heq] at h ⊢
  have hmm : m = msg := GoError.errorf.inj (Option.some.inj h)
  exact ⟨rfl, rfl, rfl, hmm ▸ hm⟩

/-- Witness of C12: a weak magnitude of infinity is rejected with the log of
calls left as it was. -/
theorem C12_validation_before_kernel_witness :
    (CreateFFRumbleEffect linuxEcodes sampleSys sampleDev Float32.half (Float32.inf false)
        200000000 { calls := [Call.write 3 ⟨0, 0, 0x15, 7, 1⟩] }).2.calls
      = [Call.write 3 ⟨0, 0, 0x15, 7, 1⟩] :=
  (C12_validation_before_kernel linuxEcodes sampleSys sampleDev Float32.half
    (Float32.inf false) 200000000 { calls := [Call.write 3 ⟨0, 0, 0x15, 7, 1⟩] }
    "Weak magnitude out of range." (by decide)).2.1

/-- C13: on a device whose write primitive succeeds, two calls of `Stop` in a
row on the same handle return no error and append two write records to the
log, equal to each other and with the same 24 bytes on the wire; `Stop` reads
the handle and returns nothing but the error, so the handle's id and device
are as before. -/
theorem C13_stop_twice (k : Ecodes) (sys : Sys) (eff : FFEffect) (w : World)
    (hw : ∀ (hist : List Call) (fd : Nat) (ev : InputEvent), sys.write hist fd ev = none) :
    (eff.Stop k sys w).1 = none ∧
    (eff.Stop k sys (eff.Stop k sys w).2).1 = none ∧
    ∃ ev1 ev2 : InputEvent,
      (eff.Stop k sys (eff.Stop k sys w).2).2.calls
        = w.calls ++ [Call.write eff.dev.File ev1, Call.write eff.dev.File ev2] ∧
      ev1 = ev2 ∧ ev1.bytes = ev2.bytes ∧ ev1.bytes.length = 24 ∧
      ev1 = { TimeSec := 0, TimeUsec := 0, Typ := k.EV_FF,
              Code := (eff.id % 65536).toNat, Value := 0 } := by
  refine ⟨hw _ _ _, hw _ _ _, _, _, ?_, rfl, rfl, InputEvent.bytes_length _, rfl⟩
  simp [FFEffect.Stop]

/-- Witness of C13: the handle with id 7 on the kernel that accepts every
write. -/
theorem C13_stop_twice_witness :
    (FFEffect.Stop linuxEcodes sampleSys { dev := sampleDev, id := 7 }
      (FFEffect.Stop linuxEcodes sampleSys { dev := sampleDev, id := 7 }
        { calls := [] }).2).1 = none :=
  (C13_stop_twice linuxEcodes sampleSys { dev := sampleDev, id := 7 } { calls := [] }
    (fun _ _ _ => rfl)).2.1

/-- C14 (counterexample): `Delete` hands the kernel a pointer to the handle's
own `id` field. On a kernel that stores 99 there, `Delete` on the handle with
id 7 succeeds and the handle then has id 99, not 7; a `Play` after it is
written with code 99. -/
theorem C14_delete_id_rewritten :
    (FFEffect.Delete linuxEcodes rewritingSys { dev := sampleDev, id := 7 }
        { calls := [] }).1.1 = none ∧
    (FFEffect.Delete linuxEcodes rewritingSys { dev := sampleDev, id := 7 }
        { calls := [] }).1.2.id = 99 ∧
    (FFEffect.Delete linuxEcodes rewritingSys { dev := sampleDev, id := 7 }
        { calls := [] }).1.2 ≠ { dev := sampleDev, id := 7 } ∧
    (FFEffect.Play linuxEcodes rewritingSys
        (FFEffect.Delete linuxEcodes rewritingSys { dev := sampleDev, id := 7 }
          { calls := [] }).1.2
        (FFEffect.Delete linuxEcodes rewritingSys { dev := sampleDev, id := 7 }
          { calls := [] }).2).2.calls =
      [Call.ioctl 3 0x40044581 (IoctlArg.effectId 7),
       Call.write 3 { TimeSec := 0, TimeUsec := 0, Typ := 0x15, Code := 99, Value := 1 }] := by
  decide

/-- C14 (amended): `Delete` on a handle with id `i` issues exactly one request,
the ioctl `EVIOCRMFF` carrying `i`; it returns nil exactly when the status is 0
and the status as the error otherwise. In both cases the handle's device is
unchanged and its id is the value the request leaves in the id field it points
to, so the handle is unchanged whenever the request leaves that field as it
is. A later `Play`, `Stop` or `Delete` is not rejected: it is carried out with
the identifier the handle then holds, `Play` and `Stop` returning what the
write primitive returns. -/
theorem C14_delete_request (k : Ecodes) (sys : Sys) (eff : FFEffect) (w : World) :
    (eff.Delete k sys w).2.calls
      = w.calls ++ [Call.ioctl eff.dev.File k.EVIOCRMFF (IoctlArg.effectId eff.id)] ∧
    ((eff.Delete k sys w).1.1 = none ↔
      (sys.ioctlId w.calls eff.dev.File k.EVIOCRMFF eff.id).1 = 0) ∧
    ((sys.ioctlId w.calls eff.dev.File k.EVIOCRMFF eff.id).1 ≠ 0 →
      (eff.Delete k sys w).1.1
        = some (GoError.errno (sys.ioctlId w.calls eff.dev.File k.EVIOCRMFF eff.id).1)) ∧
    (eff.Delete k sys w).1.2.dev = eff.dev ∧
    (eff.Delete k sys w).1.2.id = (sys.ioctlId w.calls eff.dev.File k.EVIOCRMFF eff.id).2 ∧
    ((sys.ioctlId w.calls eff.dev.File k.EVIOCRMFF eff.id).2 = eff.id →
      (eff.Delete k sys w).1.2 = eff) ∧
    (eff.Delete k sys w).1.2.Play k sys (eff.Delete k sys w).2 =
      (sys.write (eff.Delete k sys w).2.calls eff.dev.File
          { TimeSec := 0, TimeUsec := 0, Typ := k.EV_FF,
            Code := ((sys.ioctlId w.calls eff.dev.File k.EVIOCRMFF eff.id).2 % 65536).toNat,
            Value := 1 },
        { calls := (eff.Delete k sys w).2.calls ++ [Call.write eff.dev.File
          { TimeSec := 0, TimeUsec := 0, Typ := k.EV_FF,
            Code := ((sys.ioctlId w.calls eff.dev.File k.EVIOCRMFF eff.id).2 % 65536).toNat,
            Value := 1 }] }) ∧
    (eff.Delete k sys w).1.2.Stop k sys (eff.Delete k sys w).2 =
      (sys.write (eff.Delete k sys w).2.calls eff.dev.File
          { TimeSec := 0, TimeUsec := 0, Typ := k.EV_FF,
            Code := ((sys.ioctlId w.calls eff.dev.File k.EVIOCRMFF eff.id).2 % 65536).toNat,
            Value := 0 },
        { calls := (eff.Delete k sys w).2.calls ++ [Call.write eff.dev.File
          { TimeSec := 0, TimeUsec := 0, Typ := k.EV_FF,
            Code := ((sys.ioctlId w.calls eff.dev.File k.EVIOCRMFF eff.id).2 % 65536).toNat,
            Value := 0 }] }) ∧
    ((eff.Delete k sys w).1.2.Delete k sys (eff.Delete k sys w).2).2.calls
      = (eff.Delete k sys w).2.calls ++ [Call.ioctl eff.dev.File k.EVIOCRMFF
          (IoctlArg.effectId (sys.ioctlId w.calls eff.dev.File k.EVIOCRMFF eff.id).2)] := by
  have hafter : (eff.Delete k sys w).1.2
      = { dev := eff.dev, id := (sys.ioctlId w.calls eff.dev.File k.EVIOCRMFF eff.id).2 } := by
    unfold FFEffect.Delete
    dsimp only
    split <;> rfl
  refine ⟨?_, ?_, ?_, ?_, ?_, ?_, ?_, ?_, ?_⟩
  · unfold FFEffect.Delete
    dsimp only
    split <;> rfl
  · unfold FFEffect.Delete
    dsimp only
    split <;> simp_all
  · intro h0
    unfold FFEffect.Delete
    dsimp only
    rw [if_pos (by simpa using h0)]
  · rw [hafter]
  · rw [hafter]
  · intro h
    rw [hafter, h]
  · rw [hafter]; rfl
  · rw [hafter]; rfl
  · rw [hafter]
    generalize (eff.Delete k sys w).2 = w1
    unfold FFEffect.Delete
    dsimp only
    split <;> rfl

/-- Witness of C14 (amended): the handle with id 7 on the kernel that accepts
every request and leaves the identifier: `Delete` returns nil and the handle
still has id 7. -/
theorem C14_delete_request_witness :
    (FFEffect.Delete linuxEcodes sampleSys { dev := sampleDev, id := 7 } { calls := [] }).1
      = (none, { dev := sampleDev, id := 7 }) := by
  obtain ⟨_, hnil, _, _, _, hsame, _⟩ := C14_delete_request linuxEcodes sampleSys
    { dev := sampleDev, id := 7 } { calls := [] }
  exact Prod.ext (hnil.2 rfl) (hsame rfl)

/-- C15: the exact duration handling, for every duration (any 64-bit value,
negative or above 65535 ms included) and magnitudes in [0,1]. With `ms` the
truncated quotient of the duration by one millisecond reduced modulo 65536:
the result is "Duration too short." exactly when the duration is positive and
`ms = 0`; otherwise it is "Duration too long." exactly when `ms > 32767`;
otherwise no validation error is returned and a descriptor with
`replay.length = ms` is uploaded. -/
theorem C15_duration_characterisation (k : Ecodes) (sys : Sys) (dev : InputDevice)
    (strongMag weakMag : Float32) (duration : Int) (w : World)
    (hs : strongMag.inUnit = true) (hw : weakMag.inUnit = true) :
    ∃ ms : Nat, (ms : Int) = duration.tdiv 1000000 % 65536 ∧
      ((CreateFFRumbleEffect k sys dev strongMag weakMag duration w).1.2
          = some (GoError.errorf "Duration too short.") ↔ (duration > 0 ∧ ms = 0)) ∧
      ((CreateFFRumbleEffect k sys dev strongMag weakMag duration w).1.2
          = some (GoError.errorf "Duration too long.") ↔
        (¬ (duration > 0 ∧ ms = 0) ∧ ms > 32767)) ∧
      (¬ (duration > 0 ∧ ms = 0) → ¬ ms > 32767 →
        (∀ msg, (CreateFFRumbleEffect k sys dev strongMag weakMag duration w).1.2
          ≠ some (GoError.errorf msg)) ∧
        ∃ e : FFRumbleEffect,
          (CreateFFRumbleEffect k sys dev strongMag weakMag duration w).2.calls
            = w.calls ++ [Call.ioctl dev.File k.EVIOCSFF (IoctlArg.effect e)] ∧
          e.FFEffectC.replay.length = ms) := by
  have hs1 := Float32.outOfRange_of_inUnit _ hs
  have hw1 := Float32.outOfRange_of_inUnit _ hw
  refine ⟨durationMs duration, by unfold durationMs; omega, ?_, ?_, ?_⟩
  · by_cases h3 : duration > 0 ∧ durationMs duration = 0
    · have h3b : (decide (duration > 0) && durationMs duration == 0) = true := by
        simpa using h3
      unfold Float32.outOfRange at hs1 hw1
      unfold CreateFFRumbleEffect
      simp [hs1, hw1, h3b, h3]
    · by_cases h4 : durationMs duration > 32767
      · have h3b : (decide (duration > 0) && durationMs duration == 0) = false := by
          simpa using h3
        unfold Float32.outOfRange at hs1 hw1
        unfold CreateFFRumbleEffect
        simp [hs1, hw1, h3b, h3, h4]
      · have hv : Validated strongMag weakMag duration := ⟨hs1, hw1, h3, by omega⟩
        have := (validated_iff k sys dev _ _ _ w).1 hv "Duration too short."
        simp [this, h3]
  · by_cases h3 : duration > 0 ∧ durationMs duration = 0
    · have h3b : (decide (duration > 0) && durationMs duration == 0) = true := by
        simpa using h3
      unfold Float32.outOfRange at hs1 hw1
      unfold CreateFFRumbleEffect
      simp [hs1, hw1, h3b, h3]
    · by_cases h4 : durationMs duration > 32767
      · have h3b : (decide (duration > 0) && durationMs duration == 0) = false := by
          simpa using h3
        unfold Float32.outOfRange at hs1 hw1
        unfold CreateFFRumbleEffect
        simp [hs1, hw1, h3b, h3, h4]
      · have hv : Validated strongMag weakMag duration := ⟨hs1, hw1, h3, by omega⟩
        have := (validated_iff k sys dev _ _ _ w).1 hv "Duration too long."
        simp [this, h3, h4]
  · intro h3 h4
    have hv : Validated strongMag weakMag duration := ⟨hs1, hw1, h3, by omega⟩
    refine ⟨(validated_iff k sys dev _ _ _ w).1 hv, ?_⟩
    rw [create_of_validated k sys dev _ _ _ w hv]
    exact ⟨_, rfl, rfl⟩

/-- Witness of C15: a negative duration of -5 ms has `ms = 65531` and is
rejected as too long. -/
theorem C15_duration_characterisation_witness :
    (CreateFFRumbleEffect linuxEcodes sampleSys sampleDev Float32.half Float32.half
        (-5000000) { calls := [] }).1.2 = some (GoError.errorf "Duration too long.") := by
  obtain ⟨ms, hms, _, hlong, _⟩ := C15_duration_characterisation linuxEcodes sampleSys
    sampleDev Float32.half Float32.half (-5000000) { calls := [] } (by decide) (by decide)
  have hq : (-5000000 : Int).tdiv 1000000 % 65536 = 65531 := by decide
  rw [hq] at hms
  exact hlong.2 ⟨by omega, by omega⟩

/-- C16: every descriptor that `CreateFFRumbleEffect` hands to an ioctl, on any
input, has `replay.length` at most 32767, hence non-negative as a signed 16-bit
quantity, and has `replay.length = 0` only when the duration is not strictly
positive. -/
theorem C16_length_invariant (k : Ecodes) (sys : Sys) (dev : InputDevice)
    (strongMag weakMag : Float32) (duration : Int) (w : World)
    (fd req : Nat) (e : FFRumbleEffect)
    (h : (CreateFFRumbleEffect k sys dev strongMag weakMag duration w).2.calls
      = w.calls ++ [Call.ioctl fd req (IoctlArg.effect e)]) :
    e.FFEffectC.replay.length ≤ 32767 ∧
    0 ≤ toInt16 e.FFEffectC.replay.length ∧
    (e.FFEffectC.replay.length = 0 → ¬ duration > 0) := by
  by_cases hv : Validated strongMag weakMag duration
  · rw [create_of_validated k sys dev _ _ _ w hv] at h
    have h1 := List.append_cancel_left h
    simp only [uploadCall, List.cons.injEq, Call.ioctl.injEq, IoctlArg.effect.injEq,
      and_true] at h1
    obtain ⟨_, _, he⟩ := h1
    subst he
    obtain ⟨_, _, h3, h4⟩ := hv
    have hl : (rumbleDescriptor k sys strongMag weakMag duration).FFEffectC.replay.length
        = durationMs duration := rfl
    rw [hl]
    refine ⟨h4, ?_, fun h0 hpos => h3 ⟨hpos, h0⟩⟩
    unfold toInt16
    split <;> omega
  · obtain ⟨m, _, heq⟩ := create_of_not_validated k sys dev strongMag weakMag duration w hv
    rw [heq] at h
    have h1 := congrArg List.length h
    simp at h1

/-- Witness of C16: the descriptor uploaded for magnitudes 0.5 and 200 ms has
length 200. -/
theorem C16_length_invariant_witness :
    (CreateFFRumbleEffect linuxEcodes sampleSys sampleDev Float32.half Float32.half
        200000000 { calls := [] }).2.calls
      = [] ++ [Call.ioctl 3 0x40304580 (IoctlArg.effect
          { FFEffectC :=
              { effectType := 0x50, id := -1, direction := 0,
                trigger := { button := 0, interval := 0 },
                replay := { length := 200, delay := 0 }, _pad := (0, 0) },
            strongMagnitude := 32767, weakMagnitude := 32767 })] ∧
    ((200 : Nat) ≤ 32767 ∧ 0 ≤ toInt16 200 ∧ ((200 : Nat) = 0 → ¬ (200000000 : Int) > 0)) :=
  ⟨by decide,
    C16_length_invariant linuxEcodes sampleSys sampleDev Float32.half Float32.half 200000000
      { calls := [] } 3 0x40304580
      { FFEffectC :=
          { effectType := 0x50, id := -1, direction := 0,
            trigger := { button := 0, interval := 0 },
            replay := { length := 200, delay := 0 }, _pad := (0, 0) },
        strongMagnitude := 32767, weakMagnitude := 32767 } (by decide)⟩

end Evdev
